import Mathlib

/-!
Verification of the static blog generator in `lib/html.go` (package `lib`
of `thr-ls/litepub`).

The Go code is shallowly embedded:

* Filesystem paths are lists of components (`filepath.Join` is list append).
* The filesystem is a pair of maps: file contents (`Path → Option String`,
  strings standing for byte sequences) and directories (`Path → Bool`).
* Fallible OS / library calls (`os.RemoveAll`, `shutil.CopyTree`,
  `os.Mkdir`, `os.OpenFile`, `template.Execute`, `os.Stat`,
  `template.ParseFiles`) are driven by an `Env` of injectable outcomes;
  template rendering is an arbitrary function returning `Except`.
* The progress callback (`ProgressFunc`, a Go function with no return
  value, hence with no way to signal anything back to the generator) is
  observed through a trace of events: a `progress` event is appended at
  the exact program point where `g.progressFunc(path)` runs.
* `os.OpenFile(…, O_CREATE|O_WRONLY, 0600)` creates the file if absent
  and keeps the existing bytes otherwise (there is no `O_TRUNC` in the
  source); a successful `template.Execute` then writes the rendered bytes
  starting at offset 0, leaving any longer tail of the previous contents
  in place.  `overwriteFrom` models exactly that.
-/

namespace Litepub

abbrev Path := List String

/-- A blog post, as used by the generator: title, markdown body, tags,
publish timestamp (modelled as a bare number, only carried around). -/
structure Post where
  title : String
  body : String
  tags : List String
  date : Nat
deriving DecidableEq, Repr

/-- Modelled from the spec: the Blog Model's read-only query surface (§3).
The `Blog` type itself is not under `src/`; per §3 it exposes
(a) posts sorted by date with a direction flag and an optional tag filter
(the variadic Go parameter at the two call sites of `html.go` is either
absent or a single tag, hence `Option String`), and (b) the distinct tags,
optionally sorted. -/
structure Blog where
  PostsByDate : Bool → Bool → Option String → List Post
  Tags : Bool → List String

/-- Modelled from the spec: the external Slug Function
(`github.com/gosimple/slug`, contract §4.1): lowercase, ASCII-normalized,
hyphen-separated token — deterministic, no path separators.  Concretely:
every character is lowercased, every non-alphanumeric character becomes a
hyphen, runs of hyphens are collapsed and outer hyphens stripped. -/
def slugChar (c : Char) : Char :=
  if c.isAlphanum then c.toLower else '-'

def collapseDashes : List Char → List Char
  | [] => []
  | [c] => [c]
  | c :: d :: r =>
    if c = '-' && d = '-' then collapseDashes (d :: r)
    else c :: collapseDashes (d :: r)

def trimDashes (l : List Char) : List Char :=
  ((l.dropWhile (fun c => c = '-')).reverse.dropWhile (fun c => c = '-')).reverse

def slugMake (s : String) : String :=
  ⟨trimDashes (collapseDashes (s.data.map slugChar))⟩

/-! ### The content transform set (`templateFuncs` of `html.go`) -/

/-- Model of `strings.Split(content, "\n\n")` at the character level: split on
non-overlapping occurrences of the two-character separator, left to
right, keeping empty chunks (Go semantics for a non-empty separator).
(Defined on char lists rather than through `String.splitOn` so that the
kernel can evaluate it on concrete inputs.) -/
def splitParas : List Char → List (List Char)
  | [] => [[]]
  | '\n' :: '\n' :: rest => [] :: splitParas rest
  | c :: rest =>
    match splitParas rest with
    | [] => [[c]]
    | h :: t => (c :: h) :: t

/-- The blank-line-separated paragraphs of a post body:
`strings.Split(content, "\n\n")`. -/
def paragraphs (content : String) : List String :=
  (splitParas content.data).map fun l => ⟨l⟩

/-- Model of `strings.HasPrefix(line, "#")`: the line's first character is the
heading marker. -/
def hasHeadingMarker (line : String) : Bool :=
  match line.data with
  | [] => false
  | c :: _ => c = '#'

/-- Loop body of `summary`: return the first chunk not starting with `#`,
else fall through to the full content. -/
def summaryLoop : List String → String → String
  | [], content => content
  | line :: rest, content =>
    if !hasHeadingMarker line then line else summaryLoop rest content

/-- Function `summary` from `html.go`: split on `"\n\n"`, return the first chunk
that does not have the `"#"` marker at its start, else the whole input. -/
def summary (content : String) : String :=
  summaryLoop (paragraphs content) content

/-- Function `even` from `html.go`. -/
def even (integer : Int) : Bool :=
  integer % 2 == 0

/-- Function `inc` from `html.go`. -/
def inc (integer : Int) : Int :=
  integer + 1

/-- Function `slugify` from `html.go` (wraps `slug.Make`). -/
def slugify (str : String) : String :=
  slugMake str

/-! ### Filesystem model -/

structure FS where
  files : Path → Option String
  dirs : Path → Bool

def emptyFS : FS :=
  { files := fun _ => none, dirs := fun _ => false }

def FS.setFile (fs : FS) (p : Path) (c : String) : FS :=
  { fs with files := fun q => if q = p then some c else fs.files q }

def FS.setDir (fs : FS) (p : Path) : FS :=
  { fs with dirs := fun q => if q = p then true else fs.dirs q }

/-- Predicate `underPath base q`: holds when `base` is an ancestor of `q` (or `q`
itself): `q = base ++ r` for some `r`. -/
def underPath : Path → Path → Bool
  | [], _ => true
  | _ :: _, [] => false
  | b :: bs, q :: qs => b = q && underPath bs qs

/-- Effect of `os.RemoveAll out` on the filesystem: every file and
directory at or below `out` disappears. -/
def removeAllFS (out : Path) (fs : FS) : FS :=
  { files := fun q => if underPath out q then none else fs.files q,
    dirs := fun q => if underPath out q then false else fs.dirs q }

/-- Writing bytes starting at offset 0 into a file holding `old`, without
truncation (`O_CREATE|O_WRONLY`, no `O_TRUNC`): the new bytes, then
whatever tail of `old` extends past them. -/
def overwriteFrom (old new : String) : String :=
  ⟨new.data ++ old.data.drop new.data.length⟩

/-! ### Environment of injectable outcomes for external calls -/

structure Env where
  /-- Contents of the template/asset source tree (`templatesDir`),
  as relative paths. -/
  sourceTree : List (Path × String)
  /-- Outcome of `os.RemoveAll(outputDir)`. -/
  removeAllError : Option String
  /-- Outcome of `shutil.CopyTree`. -/
  copyTreeError : Option String
  /-- Injected outcome of `os.Mkdir` (besides the exists check). -/
  mkdirError : Option String
  /-- Outcome of `os.OpenFile` per absolute path. -/
  openError : Path → Option String
  /-- Outcome of `os.Stat(templatesDir)`. -/
  templatesDirOk : Bool
  /-- Outcome of `createTemplate(templatesDir, "index.tmpl")`:
  a parse error, or the rendering function of the template composed
  with `layout.tmpl` and bound to `templateFuncs`. -/
  indexTmplParse : Except String (List Post → Except String String)
  /-- Outcome of `createTemplate(templatesDir, "post.tmpl")`. -/
  postTmplParse : Except String (Post → Except String String)
  /-- Outcome of `createTemplate(templatesDir, "tag.tmpl")`. -/
  tagTmplParse : Except String (String × List Post → Except String String)

/-- The four template-definition file names the copy ignores
(the `Ignore` function of `prepareOutputDir` returns them for every
visited directory). -/
def templateFileNames : List String :=
  ["layout.tmpl", "index.tmpl", "post.tmpl", "tag.tmpl"]

/-- The source-tree entries that `shutil.CopyTree` copies: those with no
component named like a template-definition file. -/
def copiedAssets (env : Env) : List (Path × String) :=
  env.sourceTree.filter (fun a => a.1.all (fun c => !templateFileNames.contains c))

def copyInto (out : Path) (l : List (Path × String)) (F : FS) : FS :=
  l.foldl (fun f a => f.setFile (out ++ a.1) a.2) F

/-- Model of `os.RemoveAll`: on failure the tree survives (one faithful
representative of a failed removal); on success it is gone.  The caller
in `html.go` discards the first component. -/
def osRemoveAll (env : Env) (out : Path) (fs : FS) : Option String × FS :=
  match env.removeAllError with
  | some e => (some e, fs)
  | none => (none, removeAllFS out fs)

/-- Model of `shutil.CopyTree(templatesDir, outputDir, …)` per its contract:
creates the destination directory and copies every non-ignored entry. -/
def shutilCopyTree (env : Env) (out : Path) (fs : FS) : Except String FS :=
  match env.copyTreeError with
  | some e => .error e
  | none => .ok (copyInto out (copiedAssets env) (fs.setDir out))

/-- Model of `os.Mkdir`: fails on an injected error or when the directory already
exists. -/
def osMkdir (env : Env) (p : Path) (fs : FS) : Except String FS :=
  match env.mkdirError with
  | some e => .error e
  | none => if fs.dirs p then .error "file exists" else .ok (fs.setDir p)

/-! ### The generator -/

/-- Structure `StaticBlogGenerator` of `html.go`.  The `progressFunc` field has no
computational content (a Go func with no results); its invocations are
recorded in the event trace instead. -/
structure StaticBlogGenerator where
  templatesDir : String
  outputDir : Path
  indexTemplate : List Post → Except String String
  postTemplate : Post → Except String String
  tagTemplate : String × List Post → Except String String
  posts : List Post
  postsByTag : List (String × List Post)

inductive Event where
  | progress (path : Path)
  | openF (path : Path)
  | writeF (path : Path)
deriving DecidableEq, Repr

structure GenState where
  fs : FS
  trace : List Event

/-- Function `generatePage` of `html.go`: call the progress callback with the
relative path, open `outputDir/path` (`O_CREATE|O_WRONLY`, no
truncation), render the template into it streaming from offset 0. -/
def generatePage {α : Type} (env : Env) (g : StaticBlogGenerator)
    (render : α → Except String String) (path : Path) (data : α)
    (st : GenState) : GenState × Option String :=
  let tr1 := st.trace ++ [Event.progress path]
  let full := g.outputDir ++ path
  match env.openError full with
  | some e => ({ st with trace := tr1 }, some e)
  | none =>
    let old := (st.fs.files full).getD ""
    let fs1 := st.fs.setFile full old
    let tr2 := tr1 ++ [Event.openF full]
    match render data with
    | .error e => ({ fs := fs1, trace := tr2 }, some e)
    | .ok s =>
      ({ fs := fs1.setFile full (overwriteFrom old s),
         trace := tr2 ++ [Event.writeF full] }, none)

def indexRelPath : Path := ["index.html"]

def postRelPath (post : Post) : Path := [slugMake post.title ++ ".html"]

def tagRelPath (tag : String) : Path := ["tags", slugMake tag ++ ".html"]

/-- Function `generateIndex` of `html.go`. -/
def generateIndex (env : Env) (g : StaticBlogGenerator) (st : GenState) :
    GenState × Option String :=
  generatePage env g g.indexTemplate indexRelPath g.posts st

def generatePostsAux (env : Env) (g : StaticBlogGenerator) :
    List Post → GenState → GenState × Option String
  | [], st => (st, none)
  | post :: rest, st =>
    match generatePage env g g.postTemplate (postRelPath post) post st with
    | (st1, some e) => (st1, some e)
    | (st1, none) => generatePostsAux env g rest st1

/-- Function `generatePosts` of `html.go`: one page per post in snapshot order,
stopping at the first failure. -/
def generatePosts (env : Env) (g : StaticBlogGenerator) (st : GenState) :
    GenState × Option String :=
  generatePostsAux env g g.posts st

def generateTagsAux (env : Env) (g : StaticBlogGenerator) :
    List (String × List Post) → GenState → GenState × Option String
  | [], st => (st, none)
  | tb :: rest, st =>
    match generatePage env g g.tagTemplate (tagRelPath tb.1) tb st with
    | (st1, some e) => (st1, some e)
    | (st1, none) => generateTagsAux env g rest st1

/-- Function `generateTags` of `html.go`: one page per entry of the tag→posts
snapshot, stopping at the first failure.  (Go iterates the map in an
unspecified order; the model iterates the snapshot list in order.) -/
def generateTags (env : Env) (g : StaticBlogGenerator) (st : GenState) :
    GenState × Option String :=
  generateTagsAux env g g.postsByTag st

/-- Function `prepareOutputDir` of `html.go`: `os.RemoveAll(outputDir)` with its
error DISCARDED (the source does not bind it), then
`shutil.CopyTree(templatesDir, outputDir, …)` ignoring the four template
files, then `os.Mkdir(outputDir/tags, 0700)`. -/
def prepareOutputDir (env : Env) (g : StaticBlogGenerator) (st : GenState) :
    GenState × Option String :=
  match shutilCopyTree env g.outputDir (osRemoveAll env g.outputDir st.fs).2 with
  | .error e => ({ st with fs := (osRemoveAll env g.outputDir st.fs).2 }, some e)
  | .ok fs2 =>
    match osMkdir env (g.outputDir ++ ["tags"]) fs2 with
    | .error e => ({ st with fs := fs2 }, some e)
    | .ok fs3 => ({ st with fs := fs3 }, none)

/-- Function `Generate` of `html.go`: the four phases in order, each failure
wrapped with `fmt.Errorf("<phase>: %s", err)` and returned at once. -/
def Generate (env : Env) (g : StaticBlogGenerator) (st : GenState) :
    GenState × Option String :=
  match prepareOutputDir env g st with
  | (st1, some e) => (st1, some ("failed to prepare output directory: " ++ e))
  | (st1, none) =>
    match generateIndex env g st1 with
    | (st2, some e) => (st2, some ("failed to generate index: " ++ e))
    | (st2, none) =>
      match generateTags env g st2 with
      | (st3, some e) => (st3, some ("failed to generate tags: " ++ e))
      | (st3, none) =>
        match generatePosts env g st3 with
        | (st4, some e) => (st4, some ("failed to generate posts: " ++ e))
        | (st4, none) => (st4, none)

/-- Function `NewStaticBlogGenerator` of `html.go`: `os.Stat` on the templates
directory, parse the three templates (each composed with the layout),
snapshot the post list and the tag→posts map.  The state is threaded to
record that construction performs no operation on the output
directory. -/
def NewStaticBlogGenerator (env : Env) (blog : Blog) (templatesDir : String)
    (outputDir : Path) (st : GenState) :
    Except String StaticBlogGenerator × GenState :=
  (if !env.templatesDirOk then
    .error ("templates directory not found: " ++ templatesDir)
   else
    match env.indexTmplParse with
    | .error e => .error e
    | .ok indexTemplate =>
      match env.postTmplParse with
      | .error e => .error e
      | .ok postTemplate =>
        match env.tagTmplParse with
        | .error e => .error e
        | .ok tagTemplate =>
          let posts := blog.PostsByDate false false none
          let postsByTag := (blog.Tags false).map
            (fun tag => (tag, blog.PostsByDate false false (some tag)))
          .ok { templatesDir := templatesDir, outputDir := outputDir,
                indexTemplate := indexTemplate, postTemplate := postTemplate,
                tagTemplate := tagTemplate, posts := posts,
                postsByTag := postsByTag },
   st)

/-- The relative paths handed to the progress callback, in trace order. -/
def progressPaths (tr : List Event) : List Path :=
  tr.filterMap fun e =>
    match e with
    | .progress p => some p
    | _ => none

/-! ### An environment with no injected failures, and concrete fixtures -/

/-- An environment in which every external call succeeds and the source
tree is empty; the parsed templates render nothing (they are irrelevant:
`Generate` only uses the templates stored in the generator). -/
def cleanEnv : Env :=
  { sourceTree := [], removeAllError := none, copyTreeError := none,
    mkdirError := none, openError := fun _ => none, templatesDirOk := true,
    indexTmplParse := .ok fun _ => .ok "",
    postTmplParse := .ok fun _ => .ok "",
    tagTmplParse := .ok fun _ => .ok "" }

def st0 : GenState := { fs := emptyFS, trace := [] }

/-- A generator with no posts and no tags and trivial templates. -/
def trivGen : StaticBlogGenerator :=
  { templatesDir := "templates", outputDir := ["public"],
    indexTemplate := fun _ => .ok "", postTemplate := fun _ => .ok "",
    tagTemplate := fun _ => .ok "", posts := [], postsByTag := [] }

/-- An environment whose tree copy fails. -/
def phaseEnv : Env := { cleanEnv with copyTreeError := some "boom" }

/-- An environment in which only `os.RemoveAll` fails. -/
def swEnv : Env := { cleanEnv with removeAllError := some "permission denied" }

/-- An initial state whose output directory already holds a stale file
left behind by an earlier run. -/
def stStale : GenState :=
  { fs := { files := fun q =>
              if q = ["out", "stale.html"] then some "stale" else none,
            dirs := fun _ => false },
    trace := [] }

def wPost1 : Post := { title := "A", body := "", tags := ["x"], date := 0 }

/-- A blog whose tag-filtered query honours the stated contract by
construction. -/
def wBlog : Blog :=
  { PostsByDate := fun _ _ o =>
      match o with
      | none => [wPost1]
      | some tag => [wPost1].filter (fun p => p.tags.contains tag),
    Tags := fun _ => ["x"] }

/-- The generator `NewStaticBlogGenerator cleanEnv wBlog` produces. -/
def wGen : StaticBlogGenerator :=
  { templatesDir := "t", outputDir := ["out"],
    indexTemplate := fun _ => Except.ok "",
    postTemplate := fun _ => Except.ok "",
    tagTemplate := fun _ => Except.ok "",
    posts := [wPost1], postsByTag := [("x", [wPost1])] }

/-- The filesystem a successful `prepareOutputDir` leaves behind when the
removal succeeded: prior output removed, assets copied, output dir and
`tags` subdirectory created. -/
def prepFS (env : Env) (g : StaticBlogGenerator) (fs : FS) : FS :=
  (copyInto g.outputDir (copiedAssets env)
    ((removeAllFS g.outputDir fs).setDir g.outputDir)).setDir
    (g.outputDir ++ ["tags"])

/-- A two-post generator whose post template renders the raw body; used
to study colliding slugs. -/
def collideGen (t1 t2 body1 body2 : String) : StaticBlogGenerator :=
  { templatesDir := "templates", outputDir := ["public"],
    indexTemplate := fun _ => .ok "",
    postTemplate := fun p => .ok p.body,
    tagTemplate := fun _ => .ok "",
    posts := [{ title := t1, body := body1, tags := [], date := 0 },
              { title := t2, body := body2, tags := [], date := 1 }],
    postsByTag := [] }

/-- Two posts with distinct titles and the same slug, the earlier one
rendering more bytes than the later one. -/
def cexGen : StaticBlogGenerator :=
  collideGen "Hello World" "hello world" "0123456789" "abc"

/-! ## Lemmas about the filesystem model -/

theorem FS.files_setFile (fs : FS) (p : Path) (c : String) (q : Path) :
    (fs.setFile p c).files q = if q = p then some c else fs.files q := rfl

theorem FS.dirs_setFile (fs : FS) (p : Path) (c : String) (q : Path) :
    (fs.setFile p c).dirs q = fs.dirs q := rfl

theorem FS.files_setDir (fs : FS) (p : Path) (q : Path) :
    (fs.setDir p).files q = fs.files q := rfl

theorem FS.dirs_setDir (fs : FS) (p : Path) (q : Path) :
    (fs.setDir p).dirs q = if q = p then true else fs.dirs q := rfl

theorem FS.eq_of_parts {f1 f2 : FS}
    (hf : ∀ q, f1.files q = f2.files q) (hd : ∀ q, f1.dirs q = f2.dirs q) :
    f1 = f2 := by
  cases f1
  cases f2
  simp only [FS.mk.injEq]
  exact ⟨funext hf, funext hd⟩

theorem FS.setFile_setFile (fs : FS) (p : Path) (a b : String) :
    (fs.setFile p a).setFile p b = fs.setFile p b := by
  apply FS.eq_of_parts
  · intro q
    simp only [FS.files_setFile]
    by_cases h : q = p <;> simp [h]
  · intro q
    rfl

theorem underPath_append (b r : Path) : underPath b (b ++ r) = true := by
  induction b with
  | nil => rfl
  | cons x xs ih => simpa [underPath] using ih

theorem underPath_self (b : Path) : underPath b b = true := by
  simpa using underPath_append b []

theorem eq_append_of_underPath {b q : Path} (h : underPath b q = true) :
    ∃ r, q = b ++ r := by
  induction b generalizing q with
  | nil => exact ⟨q, rfl⟩
  | cons x xs ih =>
    cases q with
    | nil => simp [underPath] at h
    | cons y ys =>
      simp only [underPath, Bool.and_eq_true, decide_eq_true_eq] at h
      obtain ⟨r, hr⟩ := ih h.2
      exact ⟨r, by simp [h.1, hr]⟩

theorem ne_append_of_not_underPath {b q : Path} (h : underPath b q = false)
    (r : Path) : q ≠ b ++ r := by
  intro hq
  rw [hq, underPath_append] at h
  exact absurd h (by decide)

theorem underPath_of_underPath_append {b c q : Path}
    (h : underPath (b ++ c) q = true) : underPath b q = true := by
  obtain ⟨r, hr⟩ := eq_append_of_underPath h
  rw [hr, List.append_assoc]
  exact underPath_append b (c ++ r)

theorem append_ne_of_head_ne {b : Path} {x y : String} (h : x ≠ y)
    (r s : Path) : b ++ x :: r ≠ b ++ y :: s := by
  intro hq
  exact h (List.cons.injEq .. ▸ (List.append_cancel_left hq)).1

theorem removeAllFS_files (out : Path) (fs : FS) (q : Path) :
    (removeAllFS out fs).files q =
      if underPath out q then none else fs.files q := rfl

theorem removeAllFS_dirs (out : Path) (fs : FS) (q : Path) :
    (removeAllFS out fs).dirs q =
      if underPath out q then false else fs.dirs q := rfl

theorem removeAllFS_setFile_under (out : Path) (fs : FS) (r : Path)
    (c : String) : removeAllFS out (fs.setFile (out ++ r) c) =
      removeAllFS out fs := by
  apply FS.eq_of_parts
  · intro q
    simp only [removeAllFS_files, FS.files_setFile]
    by_cases hu : underPath out q = true
    · simp [hu]
    · have hq := ne_append_of_not_underPath (Bool.of_not_eq_true hu) r
      simp [Bool.of_not_eq_true hu, hq]
  · intro q
    rfl

theorem removeAllFS_setDir_under (out : Path) (fs : FS) (r : Path) :
    removeAllFS out (fs.setDir (out ++ r)) = removeAllFS out fs := by
  apply FS.eq_of_parts
  · intro q
    rfl
  · intro q
    simp only [removeAllFS_dirs, FS.dirs_setDir]
    by_cases hu : underPath out q = true
    · simp [hu]
    · have hq := ne_append_of_not_underPath (Bool.of_not_eq_true hu) r
      simp [Bool.of_not_eq_true hu, hq]

theorem removeAllFS_idem (out : Path) (fs : FS) :
    removeAllFS out (removeAllFS out fs) = removeAllFS out fs := by
  apply FS.eq_of_parts
  · intro q
    simp only [removeAllFS_files]
    by_cases hu : underPath out q <;> simp [hu]
  · intro q
    simp only [removeAllFS_dirs]
    by_cases hu : underPath out q <;> simp [hu]

theorem append_singleton_ne (l : Path) (x : String) (r : Path) :
    l ++ x :: r ≠ l := by
  intro h
  have := congrArg List.length h
  simp at this

theorem setFile_isSome (fs : FS) (p : Path) (c : String) (q : Path) :
    (((fs.setFile p c).files q).isSome = true) ↔
      q = p ∨ (fs.files q).isSome = true := by
  by_cases h : q = p <;> simp [FS.files_setFile, h]

theorem overwriteFrom_empty (s : String) : overwriteFrom "" s = s := by
  unfold overwriteFrom
  cases s with
  | mk data => simp

/-! ## Lemmas about `copyInto` -/

theorem copyInto_dirs (out : Path) (l : List (Path × String)) (F : FS)
    (q : Path) : (copyInto out l F).dirs q = F.dirs q := by
  induction l generalizing F with
  | nil => rfl
  | cons a rest ih => simpa [copyInto] using ih (F.setFile (out ++ a.1) a.2)

theorem copyInto_files_notMem (out : Path) (l : List (Path × String))
    (F : FS) (q : Path) (h : ∀ a ∈ l, q ≠ out ++ a.1) :
    (copyInto out l F).files q = F.files q := by
  induction l generalizing F with
  | nil => rfl
  | cons a rest ih =>
    have h1 : q ≠ out ++ a.1 := h a (by simp)
    have hrest : ∀ b ∈ rest, q ≠ out ++ b.1 := fun b hb => h b (by simp [hb])
    calc (copyInto out (a :: rest) F).files q
        = (copyInto out rest (F.setFile (out ++ a.1) a.2)).files q := rfl
      _ = (F.setFile (out ++ a.1) a.2).files q := ih _ hrest
      _ = F.files q := by simp [FS.files_setFile, h1]

theorem copyInto_files_isSome (out : Path) (l : List (Path × String))
    (F : FS) (q : Path) :
    (((copyInto out l F).files q).isSome = true) ↔
      (∃ a ∈ l, q = out ++ a.1) ∨ (F.files q).isSome = true := by
  induction l generalizing F with
  | nil => simp [copyInto]
  | cons a rest ih =>
    calc (((copyInto out (a :: rest) F).files q).isSome = true)
        ↔ (∃ b ∈ rest, q = out ++ b.1) ∨
            ((F.setFile (out ++ a.1) a.2).files q).isSome = true :=
          ih (F.setFile (out ++ a.1) a.2)
      _ ↔ (∃ b ∈ rest, q = out ++ b.1) ∨
            (q = out ++ a.1 ∨ (F.files q).isSome = true) := by
          rw [setFile_isSome]
      _ ↔ (∃ b ∈ a :: rest, q = out ++ b.1) ∨ (F.files q).isSome = true := by
          simp only [List.mem_cons]
          constructor
          · rintro (⟨b, hb, rfl⟩ | hq | hF)
            · exact Or.inl ⟨b, Or.inr hb, rfl⟩
            · exact Or.inl ⟨a, Or.inl rfl, hq⟩
            · exact Or.inr hF
          · rintro (⟨b, hb | hb, rfl⟩ | hF)
            · subst hb
              exact Or.inr (Or.inl rfl)
            · exact Or.inl ⟨b, hb, rfl⟩
            · exact Or.inr (Or.inr hF)

theorem copyInto_removeAll_stable (out : Path) (l : List (Path × String))
    (F : FS) : removeAllFS out (copyInto out l F) = removeAllFS out F := by
  induction l generalizing F with
  | nil => rfl
  | cons a rest ih =>
    calc removeAllFS out (copyInto out rest (F.setFile (out ++ a.1) a.2))
        = removeAllFS out (F.setFile (out ++ a.1) a.2) := ih _
      _ = removeAllFS out F := removeAllFS_setFile_under out F a.1 a.2

/-! ## Lemmas about `prepareOutputDir` -/

theorem prepFS_dirs_tags (env : Env) (g : StaticBlogGenerator) (fs : FS) :
    (prepFS env g fs).dirs (g.outputDir ++ ["tags"]) = true := by
  simp [prepFS, FS.dirs_setDir]

theorem prepFS_files (env : Env) (g : StaticBlogGenerator) (fs : FS)
    (q : Path) (hq : underPath g.outputDir q = true) :
    ((prepFS env g fs).files q).isSome = true ↔
      ∃ a ∈ copiedAssets env, q = g.outputDir ++ a.1 := by
  unfold prepFS
  rw [show ((copyInto g.outputDir (copiedAssets env)
      ((removeAllFS g.outputDir fs).setDir g.outputDir)).setDir
      (g.outputDir ++ ["tags"])).files q =
      (copyInto g.outputDir (copiedAssets env)
      ((removeAllFS g.outputDir fs).setDir g.outputDir)).files q from rfl]
  rw [copyInto_files_isSome]
  rw [show ((removeAllFS g.outputDir fs).setDir g.outputDir).files q =
      (removeAllFS g.outputDir fs).files q from rfl]
  simp [removeAllFS_files, hq]

theorem prepFS_files_none (env : Env) (g : StaticBlogGenerator) (fs : FS)
    (q : Path) (hq : underPath g.outputDir q = true)
    (h : ∀ a ∈ copiedAssets env, q ≠ g.outputDir ++ a.1) :
    (prepFS env g fs).files q = none := by
  unfold prepFS
  rw [show ((copyInto g.outputDir (copiedAssets env)
      ((removeAllFS g.outputDir fs).setDir g.outputDir)).setDir
      (g.outputDir ++ ["tags"])).files q =
      (copyInto g.outputDir (copiedAssets env)
      ((removeAllFS g.outputDir fs).setDir g.outputDir)).files q from rfl]
  rw [copyInto_files_notMem _ _ _ _ h]
  rw [show ((removeAllFS g.outputDir fs).setDir g.outputDir).files q =
      (removeAllFS g.outputDir fs).files q from rfl]
  simp [removeAllFS_files, hq]

theorem prepareOutputDir_ok (env : Env) (g : StaticBlogGenerator)
    (st : GenState) (h0 : env.removeAllError = none)
    (hc : env.copyTreeError = none) (hm : env.mkdirError = none) :
    prepareOutputDir env g st =
      ({ st with fs := prepFS env g st.fs }, none) := by
  have hdirs : (copyInto g.outputDir (copiedAssets env)
      ((removeAllFS g.outputDir st.fs).setDir g.outputDir)).dirs
      (g.outputDir ++ ["tags"]) = false := by
    rw [copyInto_dirs]
    rw [FS.dirs_setDir]
    rw [if_neg (append_singleton_ne g.outputDir "tags" [])]
    simp [removeAllFS_dirs, underPath_append]
  unfold prepareOutputDir osRemoveAll shutilCopyTree osMkdir
  rw [h0, hc, hm]
  simp only [hdirs, Bool.false_eq_true, if_false]
  rfl

theorem prepareOutputDir_ok_inv (env : Env) (g : StaticBlogGenerator)
    (st st1 : GenState) (h0 : env.removeAllError = none)
    (h : prepareOutputDir env g st = (st1, none)) :
    env.copyTreeError = none ∧ env.mkdirError = none ∧
      st1 = { st with fs := prepFS env g st.fs } := by
  cases hc : env.copyTreeError with
  | some e =>
    unfold prepareOutputDir shutilCopyTree at h
    rw [hc] at h
    simp at h
  | none =>
    cases hm : env.mkdirError with
    | some e =>
      unfold prepareOutputDir shutilCopyTree osMkdir at h
      rw [hc, hm] at h
      simp at h
    | none =>
      rw [prepareOutputDir_ok env g st h0 hc hm] at h
      rw [Prod.mk.injEq] at h
      exact ⟨rfl, rfl, h.1.symm⟩

theorem prepareOutputDir_trace (env : Env) (g : StaticBlogGenerator)
    (st : GenState) :
    (prepareOutputDir env g st).1.trace = st.trace := by
  unfold prepareOutputDir
  split
  · rfl
  · split <;> rfl

/-! ## Case lemmas for `generatePage` -/

theorem generatePage_openFail {α : Type} (env : Env) (g : StaticBlogGenerator)
    (render : α → Except String String) (path : Path) (data : α)
    (st : GenState) (e : String)
    (h : env.openError (g.outputDir ++ path) = some e) :
    generatePage env g render path data st =
      ({ st with trace := st.trace ++ [Event.progress path] }, some e) := by
  simp [generatePage, h]

theorem generatePage_renderFail {α : Type} (env : Env)
    (g : StaticBlogGenerator) (render : α → Except String String)
    (path : Path) (data : α) (st : GenState) (e : String)
    (ho : env.openError (g.outputDir ++ path) = none)
    (hr : render data = .error e) :
    generatePage env g render path data st =
      ({ fs := st.fs.setFile (g.outputDir ++ path)
             ((st.fs.files (g.outputDir ++ path)).getD ""),
         trace := st.trace ++ [Event.progress path,
                               Event.openF (g.outputDir ++ path)] },
       some e) := by
  simp [generatePage, ho, hr]

theorem generatePage_ok {α : Type} (env : Env) (g : StaticBlogGenerator)
    (render : α → Except String String) (path : Path) (data : α)
    (st : GenState) (s : String)
    (ho : env.openError (g.outputDir ++ path) = none)
    (hr : render data = .ok s) :
    generatePage env g render path data st =
      ({ fs := st.fs.setFile (g.outputDir ++ path)
             (overwriteFrom ((st.fs.files (g.outputDir ++ path)).getD "") s),
         trace := st.trace ++ [Event.progress path,
                               Event.openF (g.outputDir ++ path),
                               Event.writeF (g.outputDir ++ path)] },
       none) := by
  simp [generatePage, ho, hr, FS.setFile_setFile]

/-! ## Inversion lemmas for successful runs -/

theorem generatePage_none_inv {α : Type} {env : Env}
    {g : StaticBlogGenerator} {render : α → Except String String}
    {path : Path} {data : α} {st st1 : GenState}
    (h : generatePage env g render path data st = (st1, none)) :
    env.openError (g.outputDir ++ path) = none ∧
    ∃ s, render data = .ok s ∧
      st1 = { fs := st.fs.setFile (g.outputDir ++ path)
                (overwriteFrom
                  ((st.fs.files (g.outputDir ++ path)).getD "") s),
              trace := st.trace ++ [Event.progress path,
                                    Event.openF (g.outputDir ++ path),
                                    Event.writeF (g.outputDir ++ path)] } := by
  cases ho : env.openError (g.outputDir ++ path) with
  | some e =>
    rw [generatePage_openFail env g render path data st e ho] at h
    simp at h
  | none =>
    cases hr : render data with
    | error e =>
      rw [generatePage_renderFail env g render path data st e ho hr] at h
      simp at h
    | ok s =>
      rw [generatePage_ok env g render path data st s ho hr] at h
      rw [Prod.mk.injEq] at h
      exact ⟨rfl, s, rfl, h.1.symm⟩

theorem Generate_ok_inv {env : Env} {g : StaticBlogGenerator}
    {st st' : GenState} (h : Generate env g st = (st', none)) :
    ∃ st1 st2 st3, prepareOutputDir env g st = (st1, none) ∧
      generateIndex env g st1 = (st2, none) ∧
      generateTags env g st2 = (st3, none) ∧
      generatePosts env g st3 = (st', none) := by
  unfold Generate at h
  split at h
  · rw [Prod.mk.injEq] at h
    exact absurd h.2 (by simp)
  case _ st1 hp =>
    split at h
    · rw [Prod.mk.injEq] at h
      exact absurd h.2 (by simp)
    case _ st2 hi =>
      split at h
      · rw [Prod.mk.injEq] at h
        exact absurd h.2 (by simp)
      case _ st3 ht =>
        split at h
        · rw [Prod.mk.injEq] at h
          exact absurd h.2 (by simp)
        case _ st4 hpo =>
          rw [Prod.mk.injEq] at h
          exact ⟨st1, st2, st3, hp, hi, ht, h.1 ▸ hpo⟩

theorem generatePage_dirs {α : Type} (env : Env) (g : StaticBlogGenerator)
    (render : α → Except String String) (path : Path) (data : α)
    (st : GenState) (q : Path) :
    ((generatePage env g render path data st).1.fs).dirs q =
      st.fs.dirs q := by
  cases ho : env.openError (g.outputDir ++ path) with
  | some e => rw [generatePage_openFail env g render path data st e ho]
  | none =>
    cases hr : render data with
    | error e =>
      rw [generatePage_renderFail env g render path data st e ho hr]
      rfl
    | ok s =>
      rw [generatePage_ok env g render path data st s ho hr]
      rfl

theorem generatePostsAux_dirs (env : Env) (g : StaticBlogGenerator)
    (l : List Post) (st : GenState) (q : Path) :
    ((generatePostsAux env g l st).1.fs).dirs q = st.fs.dirs q := by
  induction l generalizing st with
  | nil => rfl
  | cons p rest ih =>
    unfold generatePostsAux
    cases hp : generatePage env g g.postTemplate (postRelPath p) p st with
    | mk st1 r =>
      have hd : st1.fs.dirs q = st.fs.dirs q := by
        have := generatePage_dirs env g g.postTemplate (postRelPath p) p st q
        rwa [hp] at this
      cases r with
      | some e => exact hd
      | none => rw [ih st1, hd]

theorem generateTagsAux_dirs (env : Env) (g : StaticBlogGenerator)
    (l : List (String × List Post)) (st : GenState) (q : Path) :
    ((generateTagsAux env g l st).1.fs).dirs q = st.fs.dirs q := by
  induction l generalizing st with
  | nil => rfl
  | cons tb rest ih =>
    unfold generateTagsAux
    cases hp : generatePage env g g.tagTemplate (tagRelPath tb.1) tb st with
    | mk st1 r =>
      have hd : st1.fs.dirs q = st.fs.dirs q := by
        have := generatePage_dirs env g g.tagTemplate (tagRelPath tb.1) tb st q
        rwa [hp] at this
      cases r with
      | some e => exact hd
      | none => rw [ih st1, hd]

theorem generatePostsAux_ok_files (env : Env) (g : StaticBlogGenerator)
    (l : List Post) (st st' : GenState)
    (h : generatePostsAux env g l st = (st', none)) (q : Path) :
    (st'.fs.files q).isSome = true ↔
      (∃ p ∈ l, q = g.outputDir ++ postRelPath p) ∨
      (st.fs.files q).isSome = true := by
  induction l generalizing st with
  | nil =>
    unfold generatePostsAux at h
    rw [Prod.mk.injEq] at h
    rw [← h.1]
    simp
  | cons p rest ih =>
    unfold generatePostsAux at h
    cases hp : generatePage env g g.postTemplate (postRelPath p) p st with
    | mk st1 r =>
      rw [hp] at h
      cases r with
      | some e => simp at h
      | none =>
        obtain ⟨ho, s, hr, hst1⟩ := generatePage_none_inv hp
        have h1 : (st1.fs.files q).isSome = true ↔
            q = g.outputDir ++ postRelPath p ∨
            (st.fs.files q).isSome = true := by
          rw [hst1]
          exact setFile_isSome _ _ _ q
        rw [ih st1 h, h1]
        simp only [List.mem_cons]
        constructor
        · rintro (⟨b, hb, rfl⟩ | hq | hF)
          · exact Or.inl ⟨b, Or.inr hb, rfl⟩
          · exact Or.inl ⟨p, Or.inl rfl, hq⟩
          · exact Or.inr hF
        · rintro (⟨b, hb | hb, rfl⟩ | hF)
          · subst hb
            exact Or.inr (Or.inl rfl)
          · exact Or.inl ⟨b, hb, rfl⟩
          · exact Or.inr (Or.inr hF)

theorem generateTagsAux_ok_files (env : Env) (g : StaticBlogGenerator)
    (l : List (String × List Post)) (st st' : GenState)
    (h : generateTagsAux env g l st = (st', none)) (q : Path) :
    (st'.fs.files q).isSome = true ↔
      (∃ tb ∈ l, q = g.outputDir ++ tagRelPath tb.1) ∨
      (st.fs.files q).isSome = true := by
  induction l generalizing st with
  | nil =>
    unfold generateTagsAux at h
    rw [Prod.mk.injEq] at h
    rw [← h.1]
    simp
  | cons tb rest ih =>
    unfold generateTagsAux at h
    cases hp : generatePage env g g.tagTemplate (tagRelPath tb.1) tb st with
    | mk st1 r =>
      rw [hp] at h
      cases r with
      | some e => simp at h
      | none =>
        obtain ⟨ho, s, hr, hst1⟩ := generatePage_none_inv hp
        have h1 : (st1.fs.files q).isSome = true ↔
            q = g.outputDir ++ tagRelPath tb.1 ∨
            (st.fs.files q).isSome = true := by
          rw [hst1]
          exact setFile_isSome _ _ _ q
        rw [ih st1 h, h1]
        simp only [List.mem_cons]
        constructor
        · rintro (⟨b, hb, rfl⟩ | hq | hF)
          · exact Or.inl ⟨b, Or.inr hb, rfl⟩
          · exact Or.inl ⟨tb, Or.inl rfl, hq⟩
          · exact Or.inr hF
        · rintro (⟨b, hb | hb, rfl⟩ | hF)
          · subst hb
            exact Or.inr (Or.inl rfl)
          · exact Or.inl ⟨b, hb, rfl⟩
          · exact Or.inr (Or.inr hF)

theorem generatePostsAux_ok_all (env : Env) (g : StaticBlogGenerator)
    (l : List Post) (st st' : GenState)
    (h : generatePostsAux env g l st = (st', none)) :
    ∀ p ∈ l, env.openError (g.outputDir ++ postRelPath p) = none ∧
      ∃ s, g.postTemplate p = Except.ok s := by
  induction l generalizing st with
  | nil =>
    intro p hp
    simp at hp
  | cons p0 rest ih =>
    unfold generatePostsAux at h
    cases hp : generatePage env g g.postTemplate (postRelPath p0) p0 st with
    | mk st1 r =>
      rw [hp] at h
      cases r with
      | some e => simp at h
      | none =>
        obtain ⟨ho, s, hr, _⟩ := generatePage_none_inv hp
        intro p hmem
        rcases List.mem_cons.mp hmem with h1 | h1
        · subst h1
          exact ⟨ho, s, hr⟩
        · exact ih st1 h p h1

theorem generateTagsAux_ok_all (env : Env) (g : StaticBlogGenerator)
    (l : List (String × List Post)) (st st' : GenState)
    (h : generateTagsAux env g l st = (st', none)) :
    ∀ tb ∈ l, env.openError (g.outputDir ++ tagRelPath tb.1) = none ∧
      ∃ s, g.tagTemplate tb = Except.ok s := by
  induction l generalizing st with
  | nil =>
    intro tb htb
    simp at htb
  | cons tb0 rest ih =>
    unfold generateTagsAux at h
    cases hp : generatePage env g g.tagTemplate (tagRelPath tb0.1) tb0 st with
    | mk st1 r =>
      rw [hp] at h
      cases r with
      | some e => simp at h
      | none =>
        obtain ⟨ho, s, hr, _⟩ := generatePage_none_inv hp
        intro tb hmem
        rcases List.mem_cons.mp hmem with h1 | h1
        · subst h1
          exact ⟨ho, s, hr⟩
        · exact ih st1 h tb h1

/-! ## Lemmas about `summary` -/

theorem summaryLoop_of_all_heads (L : List String) (c : String)
    (h : ∀ l ∈ L, hasHeadingMarker l = true) : summaryLoop L c = c := by
  induction L with
  | nil => rfl
  | cons a t ih =>
    have ha : hasHeadingMarker a = true := h a (by simp)
    simp only [summaryLoop, ha, Bool.not_true, Bool.false_eq_true, if_false]
    exact ih fun l hl => h l (by simp [hl])

theorem summaryLoop_first (pre : List String) (para : String)
    (rest : List String) (c : String)
    (hpre : ∀ l ∈ pre, hasHeadingMarker l = true)
    (hp : hasHeadingMarker para = false) :
    summaryLoop (pre ++ para :: rest) c = para := by
  induction pre with
  | nil => simp [summaryLoop, hp]
  | cons a t ih =>
    have ha : hasHeadingMarker a = true := hpre a (by simp)
    simp only [List.cons_append, summaryLoop, ha, Bool.not_true,
      Bool.false_eq_true, if_false]
    exact ih fun l hl => hpre l (by simp [hl])

/-- C4: `summary` splits its input on blank-line-separated paragraphs and
returns the first paragraph that does not begin with the heading marker
`#`; when every paragraph begins with the marker it returns the full
input unchanged; in particular on
`"# Heading\n\nFirst real paragraph.\n\nSecond."` it returns
`"First real paragraph."` and on `"# Only\n\n## Headings"` it returns the
input itself. -/
theorem summary_spec :
    (∀ content : String,
      (∀ l ∈ paragraphs content, hasHeadingMarker l = true) →
      summary content = content) ∧
    (∀ (content para : String) (pre rest : List String),
      paragraphs content = pre ++ para :: rest →
      (∀ l ∈ pre, hasHeadingMarker l = true) →
      hasHeadingMarker para = false →
      summary content = para) ∧
    summary "# Heading\n\nFirst real paragraph.\n\nSecond." =
      "First real paragraph." ∧
    summary "# Only\n\n## Headings" = "# Only\n\n## Headings" := by
  refine ⟨?_, ?_, by decide, by decide⟩
  · intro content h
    exact summaryLoop_of_all_heads _ _ h
  · intro content para pre rest hsplit hpre hp
    unfold summary
    rw [hsplit]
    exact summaryLoop_first pre para rest content hpre hp

/-! ## C1: phase order, short-circuit and error wrapping of `Generate` -/

/-- C1: `Generate` runs prepare, index, tags, posts in this strict order,
stops at the first failing phase, wraps that phase's error with the
phase-identifying message, and succeeds when every phase succeeds. -/
theorem Generate_phases (env : Env) (g : StaticBlogGenerator)
    (st : GenState) :
    (∀ st1 e, prepareOutputDir env g st = (st1, some e) →
      Generate env g st =
        (st1, some ("failed to prepare output directory: " ++ e))) ∧
    (∀ st1, prepareOutputDir env g st = (st1, none) →
      (∀ st2 e, generateIndex env g st1 = (st2, some e) →
        Generate env g st = (st2, some ("failed to generate index: " ++ e))) ∧
      (∀ st2, generateIndex env g st1 = (st2, none) →
        (∀ st3 e, generateTags env g st2 = (st3, some e) →
          Generate env g st =
            (st3, some ("failed to generate tags: " ++ e))) ∧
        (∀ st3, generateTags env g st2 = (st3, none) →
          (∀ st4 e, generatePosts env g st3 = (st4, some e) →
            Generate env g st =
              (st4, some ("failed to generate posts: " ++ e))) ∧
          (∀ st4, generatePosts env g st3 = (st4, none) →
            Generate env g st = (st4, none))))) := by
  refine ⟨fun st1 e h1 => by simp [Generate, h1], fun st1 h1 => ⟨?_, ?_⟩⟩
  · intro st2 e h2
    simp [Generate, h1, h2]
  · intro st2 h2
    refine ⟨?_, ?_⟩
    · intro st3 e h3
      simp [Generate, h1, h2, h3]
    · intro st3 h3
      refine ⟨?_, ?_⟩
      · intro st4 e h4
        simp [Generate, h1, h2, h3, h4]
      · intro st4 h4
        simp [Generate, h1, h2, h3, h4]

/-- Witness for C1 on a run whose copy step fails. -/
theorem Generate_phases_witness :
    (prepareOutputDir phaseEnv trivGen st0).2 = some "boom" ∧
    Generate phaseEnv trivGen st0 =
      ((prepareOutputDir phaseEnv trivGen st0).1,
       some ("failed to prepare output directory: " ++ "boom")) := by
  have h2 : (prepareOutputDir phaseEnv trivGen st0).2 = some "boom" := by
    decide
  have h : prepareOutputDir phaseEnv trivGen st0 =
      ((prepareOutputDir phaseEnv trivGen st0).1, some "boom") := by
    rw [← h2]
  exact ⟨h2, (Generate_phases phaseEnv trivGen st0).1 _ "boom" h⟩

/-! ## C9: construction-time configuration errors -/

/-- C9: constructing a generator fails exactly when the templates
directory is missing or one of the three templates (each composed with
the layout) fails to load or parse, and construction leaves the
filesystem state — in particular the output directory — untouched. -/
theorem construction_guard (env : Env) (blog : Blog) (td : String)
    (od : Path) (st : GenState) :
    (NewStaticBlogGenerator env blog td od st).2 = st ∧
    ((∃ e, (NewStaticBlogGenerator env blog td od st).1 = Except.error e) ↔
      env.templatesDirOk = false ∨
      (∃ e, env.indexTmplParse = Except.error e) ∨
      (∃ e, env.postTmplParse = Except.error e) ∨
      (∃ e, env.tagTmplParse = Except.error e)) := by
  refine ⟨rfl, ?_⟩
  unfold NewStaticBlogGenerator
  cases htd : env.templatesDirOk with
  | false => simp [htd]
  | true =>
    cases hix : env.indexTmplParse with
    | error e => simp [htd, hix]
    | ok it =>
      cases hpx : env.postTmplParse with
      | error e => simp [htd, hix, hpx]
      | ok pt =>
        cases htx : env.tagTmplParse with
        | error e => simp [htd, hix, hpx, htx]
        | ok tt => simp [htd, hix, hpx, htx]

/-! ## C6: the snapshotted tag→posts mapping -/

/-- C6: assuming the Blog Model's contract — the tag-filtered query is
the full sorted list filtered to that tag — every bucket of the
snapshotted tag→posts mapping contains exactly the snapshotted posts
bearing its tag, in the full list's order (it IS the filtered full
list).  The `Blog` type is modelled from the spec (§3); its
implementation is not under `src/`. -/
theorem postsByTag_invariant (env : Env) (blog : Blog) (td : String)
    (od : Path) (st : GenState) (g : StaticBlogGenerator)
    (hq : ∀ tag, blog.PostsByDate false false (some tag) =
      (blog.PostsByDate false false none).filter
        (fun p => p.tags.contains tag))
    (hg : (NewStaticBlogGenerator env blog td od st).1 = Except.ok g) :
    ∀ tag bucket, (tag, bucket) ∈ g.postsByTag →
      (∀ p ∈ bucket, tag ∈ p.tags) ∧
      (∀ p ∈ g.posts, tag ∈ p.tags → p ∈ bucket) ∧
      bucket = g.posts.filter (fun p => p.tags.contains tag) := by
  unfold NewStaticBlogGenerator at hg
  cases htd : env.templatesDirOk <;> rw [htd] at hg
  · simp at hg
  cases hix : env.indexTmplParse <;> rw [hix] at hg
  · simp at hg
  cases hpx : env.postTmplParse <;> rw [hpx] at hg
  · simp at hg
  cases htx : env.tagTmplParse <;> rw [htx] at hg
  · simp at hg
  simp only [Bool.not_true, Bool.false_eq_true, if_false, Except.ok.injEq]
    at hg
  subst hg
  intro tag bucket hmem
  simp only [List.mem_map] at hmem
  obtain ⟨t, _, hpair⟩ := hmem
  have ht : t = tag := congrArg Prod.fst hpair
  have hb : blog.PostsByDate false false (some t) = bucket :=
    congrArg Prod.snd hpair
  rw [← hb, ht, hq tag]
  refine ⟨?_, ?_, rfl⟩
  · intro p hp
    rw [List.mem_filter] at hp
    simpa using hp.2
  · intro p hp hmem
    rw [List.mem_filter]
    exact ⟨hp, by simpa using hmem⟩

/-- Witness for C6 at a one-post, one-tag blog. -/
theorem postsByTag_invariant_witness :
    (wBlog.PostsByDate false false (some "x") =
      (wBlog.PostsByDate false false none).filter
        (fun p => p.tags.contains "x")) ∧
    ((∀ p ∈ [wPost1], "x" ∈ p.tags) ∧
     (∀ p ∈ wGen.posts, "x" ∈ p.tags → p ∈ [wPost1]) ∧
     [wPost1] = wGen.posts.filter (fun p => p.tags.contains "x")) :=
  ⟨rfl,
   postsByTag_invariant cleanEnv wBlog "t" ["out"] st0 wGen (fun _ => rfl)
     rfl "x" [wPost1] (by decide)⟩

/-! ## Congruence in the environment: `Generate` reads only the outcome
fields, and of the removal outcome only whether it is an error at all -/

theorem copiedAssets_congr {e1 e2 : Env}
    (h : e1.sourceTree = e2.sourceTree) : copiedAssets e1 = copiedAssets e2 := by
  unfold copiedAssets
  rw [h]

theorem shutilCopyTree_congr {e1 e2 : Env}
    (hc : e1.copyTreeError = e2.copyTreeError)
    (hs : e1.sourceTree = e2.sourceTree) (out : Path) (fs : FS) :
    shutilCopyTree e1 out fs = shutilCopyTree e2 out fs := by
  unfold shutilCopyTree
  rw [hc, copiedAssets_congr hs]

theorem osMkdir_congr {e1 e2 : Env} (hm : e1.mkdirError = e2.mkdirError)
    (p : Path) (fs : FS) : osMkdir e1 p fs = osMkdir e2 p fs := by
  unfold osMkdir
  rw [hm]

theorem osRemoveAll_snd_congr {e1 e2 : Env}
    (hr : e1.removeAllError.isSome = e2.removeAllError.isSome)
    (out : Path) (fs : FS) :
    (osRemoveAll e1 out fs).2 = (osRemoveAll e2 out fs).2 := by
  unfold osRemoveAll
  cases h1 : e1.removeAllError <;> cases h2 : e2.removeAllError <;>
    simp_all

theorem prepareOutputDir_congr {e1 e2 : Env} (g : StaticBlogGenerator)
    (st : GenState)
    (hr : e1.removeAllError.isSome = e2.removeAllError.isSome)
    (hc : e1.copyTreeError = e2.copyTreeError)
    (hs : e1.sourceTree = e2.sourceTree)
    (hm : e1.mkdirError = e2.mkdirError) :
    prepareOutputDir e1 g st = prepareOutputDir e2 g st := by
  unfold prepareOutputDir
  rw [osRemoveAll_snd_congr hr]
  simp only [shutilCopyTree_congr hc hs, osMkdir_congr hm]

theorem generatePage_env_congr {α : Type} {e1 e2 : Env}
    (hop : e1.openError = e2.openError) (g : StaticBlogGenerator)
    (render : α → Except String String) (path : Path) (data : α)
    (st : GenState) :
    generatePage e1 g render path data st =
    generatePage e2 g render path data st := by
  unfold generatePage
  rw [hop]

theorem generatePostsAux_env_congr {e1 e2 : Env}
    (hop : e1.openError = e2.openError) (g : StaticBlogGenerator)
    (l : List Post) (st : GenState) :
    generatePostsAux e1 g l st = generatePostsAux e2 g l st := by
  induction l generalizing st with
  | nil => rfl
  | cons p rest ih =>
    simp only [generatePostsAux]
    rw [generatePage_env_congr hop]
    cases generatePage e2 g g.postTemplate (postRelPath p) p st with
    | mk st1 r =>
      cases r with
      | none => simpa using ih st1
      | some e => rfl

theorem generateTagsAux_env_congr {e1 e2 : Env}
    (hop : e1.openError = e2.openError) (g : StaticBlogGenerator)
    (l : List (String × List Post)) (st : GenState) :
    generateTagsAux e1 g l st = generateTagsAux e2 g l st := by
  induction l generalizing st with
  | nil => rfl
  | cons tb rest ih =>
    simp only [generateTagsAux]
    rw [generatePage_env_congr hop]
    cases generatePage e2 g g.tagTemplate (tagRelPath tb.1) tb st with
    | mk st1 r =>
      cases r with
      | none => simpa using ih st1
      | some e => rfl

theorem Generate_env_congr {e1 e2 : Env} (g : StaticBlogGenerator)
    (st : GenState)
    (hr : e1.removeAllError.isSome = e2.removeAllError.isSome)
    (hc : e1.copyTreeError = e2.copyTreeError)
    (hs : e1.sourceTree = e2.sourceTree)
    (hm : e1.mkdirError = e2.mkdirError)
    (hop : e1.openError = e2.openError) :
    Generate e1 g st = Generate e2 g st := by
  unfold Generate generateIndex generateTags generatePosts
  rw [prepareOutputDir_congr g st hr hc hs hm]
  cases prepareOutputDir e2 g st with
  | mk st1 r =>
    cases r with
    | some e => rfl
    | none =>
      simp only
      rw [generatePage_env_congr hop]
      cases generatePage e2 g g.indexTemplate indexRelPath g.posts st1 with
      | mk st2 r2 =>
        cases r2 with
        | some e => rfl
        | none =>
          simp only
          rw [generateTagsAux_env_congr hop]
          cases generateTagsAux e2 g g.postsByTag st2 with
          | mk st3 r3 =>
            cases r3 with
            | some e => rfl
            | none =>
              simp only
              rw [generatePostsAux_env_congr hop]

/-! ## C5: error propagation and the swallowed removal error -/

/-- C5 counterexample: with every external call succeeding except
`os.RemoveAll`, the run still reports success — the removal error does
not propagate to the `Generate` caller (the source discards it at
`os.RemoveAll(g.outputDir)`). -/
theorem removeAll_error_swallowed_cex :
    swEnv.removeAllError = some "permission denied" ∧
    (Generate swEnv trivGen st0).2 = none :=
  ⟨rfl, by decide⟩

/-- C5 (amended): every error arising from the tree copy, the `tags`
directory creation, a page-file open or a template render propagates
synchronously to the `Generate` caller wrapped with phase-identifying
context, but the error of the destructive removal of the prior output
directory is discarded: its value cannot influence the run's outcome,
and a run can succeed despite it.  First conjunct: the removal error's
value is irrelevant to the whole run (it is dropped at the call site).
Second conjunct: any error `Generate` returns carries one of the four
phase-identifying prefixes.  Third conjunct: a successful run certifies
that the copy and the mkdir reported no error AND that the file open and
the render of the index page, of every snapshotted tag page and of every
post page succeeded — contrapositively, an error arising at any of these
operations forces `Generate` to return a (phase-wrapped) error: no error
other than the removal's is swallowed. -/
theorem removeAll_error_swallowed :
    (∀ (env : Env) (g : StaticBlogGenerator) (st : GenState) (e1 e2 : String),
      Generate { env with removeAllError := some e1 } g st =
      Generate { env with removeAllError := some e2 } g st) ∧
    (∀ (env : Env) (g : StaticBlogGenerator) (st st' : GenState)
       (m : String), Generate env g st = (st', some m) →
      ∃ e, m = "failed to prepare output directory: " ++ e ∨
           m = "failed to generate index: " ++ e ∨
           m = "failed to generate tags: " ++ e ∨
           m = "failed to generate posts: " ++ e) ∧
    (∀ (env : Env) (g : StaticBlogGenerator) (st st' : GenState),
      Generate env g st = (st', none) →
      env.copyTreeError = none ∧ env.mkdirError = none ∧
      (env.openError (g.outputDir ++ indexRelPath) = none ∧
        ∃ s, g.indexTemplate g.posts = Except.ok s) ∧
      (∀ tb ∈ g.postsByTag,
        env.openError (g.outputDir ++ tagRelPath tb.1) = none ∧
        ∃ s, g.tagTemplate tb = Except.ok s) ∧
      (∀ p ∈ g.posts,
        env.openError (g.outputDir ++ postRelPath p) = none ∧
        ∃ s, g.postTemplate p = Except.ok s)) := by
  refine ⟨fun env g st e1 e2 =>
    Generate_env_congr g st rfl rfl rfl rfl rfl, ?_, ?_⟩
  · intro env g st st' m h
    unfold Generate at h
    split at h
    · rw [Prod.mk.injEq, Option.some.injEq] at h
      exact ⟨_, Or.inl h.2.symm⟩
    · split at h
      · rw [Prod.mk.injEq, Option.some.injEq] at h
        exact ⟨_, Or.inr (Or.inl h.2.symm)⟩
      · split at h
        · rw [Prod.mk.injEq, Option.some.injEq] at h
          exact ⟨_, Or.inr (Or.inr (Or.inl h.2.symm))⟩
        · split at h
          · rw [Prod.mk.injEq, Option.some.injEq] at h
            exact ⟨_, Or.inr (Or.inr (Or.inr h.2.symm))⟩
          · rw [Prod.mk.injEq] at h
            exact absurd h.2 (by simp)
  · intro env g st st' h
    obtain ⟨st1, st2, st3, hp, hi, ht, hpo⟩ := Generate_ok_inv h
    have hcm : env.copyTreeError = none ∧ env.mkdirError = none := by
      unfold prepareOutputDir shutilCopyTree osMkdir at hp
      cases hc : env.copyTreeError <;> rw [hc] at hp
      · cases hm : env.mkdirError <;> rw [hm] at hp
        · exact ⟨rfl, rfl⟩
        · simp at hp
      · simp at hp
    unfold generateIndex at hi
    obtain ⟨ho, s, hr, _⟩ := generatePage_none_inv hi
    unfold generateTags at ht
    unfold generatePosts at hpo
    exact ⟨hcm.1, hcm.2, ⟨ho, s, hr⟩,
      generateTagsAux_ok_all env g g.postsByTag st2 st3 ht,
      generatePostsAux_ok_all env g g.posts st3 st' hpo⟩

/-- Witness for C5's conditional parts on a run whose copy step fails. -/
theorem removeAll_error_swallowed_witness :
    (Generate phaseEnv trivGen st0).2 =
      some ("failed to prepare output directory: " ++ "boom") ∧
    (∃ e, ("failed to prepare output directory: " ++ "boom") =
        "failed to prepare output directory: " ++ e ∨
      ("failed to prepare output directory: " ++ "boom") =
        "failed to generate index: " ++ e ∨
      ("failed to prepare output directory: " ++ "boom") =
        "failed to generate tags: " ++ e ∨
      ("failed to prepare output directory: " ++ "boom") =
        "failed to generate posts: " ++ e) := by
  have h2 : (Generate phaseEnv trivGen st0).2 =
      some ("failed to prepare output directory: " ++ "boom") := by decide
  have h : Generate phaseEnv trivGen st0 =
      ((Generate phaseEnv trivGen st0).1,
       some ("failed to prepare output directory: " ++ "boom")) := by
    rw [← h2]
  exact ⟨h2, removeAll_error_swallowed.2.1 phaseEnv trivGen st0 _ _ h⟩

/-! ## C2 and C10: the files a successful run leaves behind -/

theorem Generate_eq_phases (env : Env) (g : StaticBlogGenerator)
    (st st1 st2 st3 st4 : GenState)
    (hp : prepareOutputDir env g st = (st1, none))
    (hi : generateIndex env g st1 = (st2, none))
    (ht : generateTags env g st2 = (st3, none))
    (hpo : generatePosts env g st3 = (st4, none)) :
    Generate env g st = (st4, none) := by
  simp [Generate, hp, hi, ht, hpo]

/-- C2 (amended): after a successful run on a non-empty blog WHOSE
PREPARATION ACTUALLY REMOVED the prior output directory (`h0` — the
removal can also fail silently, since the source discards
`os.RemoveAll`'s error, and then stale files of the prior output
additionally survive, see the counterexample), the files below the
output directory are exactly the copied assets, `index.html`, one
`tags/<slug(tag)>.html` per snapshotted tag, and one `<slug(title)>.html`
per post — nothing else (the page paths are per-path unique: the
filesystem maps each path to at most one contents). -/
theorem generate_output_files (env : Env) (g : StaticBlogGenerator)
    (st st' : GenState) (h0 : env.removeAllError = none)
    (hne : g.posts ≠ []) (h : Generate env g st = (st', none)) :
    ∀ q, underPath g.outputDir q = true →
      ((st'.fs.files q).isSome = true ↔
        (∃ a ∈ copiedAssets env, q = g.outputDir ++ a.1) ∨
        q = g.outputDir ++ indexRelPath ∨
        (∃ tb ∈ g.postsByTag, q = g.outputDir ++ tagRelPath tb.1) ∨
        (∃ p ∈ g.posts, q = g.outputDir ++ postRelPath p)) := by
  obtain ⟨st1, st2, st3, hp, hi, ht, hpo⟩ := Generate_ok_inv h
  clear h
  obtain ⟨hc, hm, hst1⟩ := prepareOutputDir_ok_inv env g st st1 h0 hp
  intro q hq
  unfold generatePosts at hpo
  unfold generateTags at ht
  unfold generateIndex at hi
  obtain ⟨hoI, sI, hrI, hst2⟩ := generatePage_none_inv hi
  have h4 := generatePostsAux_ok_files env g g.posts st3 st' hpo q
  have h3 := generateTagsAux_ok_files env g g.postsByTag st2 st3 ht q
  have h2 : (st2.fs.files q).isSome = true ↔
      q = g.outputDir ++ indexRelPath ∨
      (st1.fs.files q).isSome = true := by
    rw [hst2]
    exact setFile_isSome _ _ _ q
  have h1 : (st1.fs.files q).isSome = true ↔
      ∃ a ∈ copiedAssets env, q = g.outputDir ++ a.1 := by
    rw [hst1]
    exact prepFS_files env g st.fs q hq
  rw [h4, h3, h2, h1]
  constructor
  · rintro (h | h | h | h)
    · exact Or.inr (Or.inr (Or.inr h))
    · exact Or.inr (Or.inr (Or.inl h))
    · exact Or.inr (Or.inl h)
    · exact Or.inl h
  · rintro (h | h | h | h)
    · exact Or.inr (Or.inr (Or.inr h))
    · exact Or.inr (Or.inr (Or.inl h))
    · exact Or.inr (Or.inl h)
    · exact Or.inl h

/-- Witness for C2 on a one-post, one-tag blog, checked at the post's
page path. -/
theorem generate_output_files_witness :
    cleanEnv.removeAllError = none ∧ wGen.posts ≠ [] ∧
    underPath wGen.outputDir ["out", "a.html"] = true ∧
    (((Generate cleanEnv wGen st0).1.fs.files ["out", "a.html"]).isSome
        = true ↔
      (∃ a ∈ copiedAssets cleanEnv,
        ["out", "a.html"] = wGen.outputDir ++ a.1) ∨
      ["out", "a.html"] = wGen.outputDir ++ indexRelPath ∨
      (∃ tb ∈ wGen.postsByTag,
        ["out", "a.html"] = wGen.outputDir ++ tagRelPath tb.1) ∨
      (∃ p ∈ wGen.posts,
        ["out", "a.html"] = wGen.outputDir ++ postRelPath p)) := by
  have h2 : (Generate cleanEnv wGen st0).2 = none := by decide
  have h : Generate cleanEnv wGen st0 =
      ((Generate cleanEnv wGen st0).1, none) := by
    rw [← h2]
  exact ⟨rfl, by decide, by decide,
    generate_output_files cleanEnv wGen st0 _ rfl (by decide) h
      ["out", "a.html"] (by decide)⟩

/-- C2 counterexample: the claim as stated is false on the code.  On a
non-empty blog, a run in which `os.RemoveAll` fails (its error is
discarded by line 58 of `html.go`) and every other call succeeds still
reports success, yet the stale file `out/stale.html` of the prior output
survives below the output directory although it is no copied asset, not
`index.html`, no tag page and no post page — so the output directory
does contain a page file other than "exactly one per post, one per tag,
and index.html". -/
theorem generate_output_files_cex :
    (Generate swEnv wGen stStale).2 = none ∧
    underPath wGen.outputDir ["out", "stale.html"] = true ∧
    ((Generate swEnv wGen stStale).1.fs.files ["out", "stale.html"]).isSome
      = true ∧
    ¬((∃ a ∈ copiedAssets swEnv,
        ["out", "stale.html"] = wGen.outputDir ++ a.1) ∨
      ["out", "stale.html"] = wGen.outputDir ++ indexRelPath ∨
      (∃ tb ∈ wGen.postsByTag,
        ["out", "stale.html"] = wGen.outputDir ++ tagRelPath tb.1) ∨
      (∃ p ∈ wGen.posts,
        ["out", "stale.html"] = wGen.outputDir ++ postRelPath p)) :=
  ⟨by decide, by decide, by decide, by decide⟩

/-- C10: on a blog with zero posts and zero tags and no injected I/O
failure, `Generate` succeeds, writes `index.html` as the render of the
empty post list, leaves an existing and empty `tags` directory, and
writes no post or tag page: below the output directory only the copied
assets and `index.html` exist. -/
theorem empty_blog_generate (env : Env) (g : StaticBlogGenerator)
    (st : GenState) (s : String)
    (hposts : g.posts = []) (htags : g.postsByTag = [])
    (h0 : env.removeAllError = none) (hc : env.copyTreeError = none)
    (hm : env.mkdirError = none)
    (hop : env.openError (g.outputDir ++ indexRelPath) = none)
    (hidx : g.indexTemplate [] = .ok s)
    (hassets : ∀ a ∈ copiedAssets env,
      a.1 ≠ indexRelPath ∧ underPath ["tags"] a.1 = false) :
    ∃ st', Generate env g st = (st', none) ∧
      st'.fs.files (g.outputDir ++ indexRelPath) = some s ∧
      st'.fs.dirs (g.outputDir ++ ["tags"]) = true ∧
      (∀ q, underPath (g.outputDir ++ ["tags"]) q = true →
        st'.fs.files q = none) ∧
      (∀ q, underPath g.outputDir q = true →
        ((st'.fs.files q).isSome = true ↔
          (∃ a ∈ copiedAssets env, q = g.outputDir ++ a.1) ∨
          q = g.outputDir ++ indexRelPath)) := by
  have hp := prepareOutputDir_ok env g st h0 hc hm
  have hr' : g.indexTemplate g.posts = .ok s := by
    rw [hposts]
    exact hidx
  have hPnone : (prepFS env g st.fs).files (g.outputDir ++ indexRelPath)
      = none := by
    refine prepFS_files_none env g st.fs _ (underPath_append _ _) ?_
    intro a ha hqa
    exact (hassets a ha).1 (List.append_cancel_left hqa).symm
  have hIdx := generatePage_ok env g g.indexTemplate indexRelPath g.posts
    ({ st with fs := prepFS env g st.fs }) s hop hr'
  have hs' : overwriteFrom
      ((({ st with fs := prepFS env g st.fs } : GenState).fs.files
        (g.outputDir ++ indexRelPath)).getD "") s = s := by
    show overwriteFrom
      (((prepFS env g st.fs).files (g.outputDir ++ indexRelPath)).getD "")
      s = s
    rw [hPnone]
    exact overwriteFrom_empty s
  rw [hs'] at hIdx
  refine ⟨⟨(prepFS env g st.fs).setFile (g.outputDir ++ indexRelPath) s,
      st.trace ++ [Event.progress indexRelPath,
        Event.openF (g.outputDir ++ indexRelPath),
        Event.writeF (g.outputDir ++ indexRelPath)]⟩,
    Generate_eq_phases env g st _
      ⟨(prepFS env g st.fs).setFile (g.outputDir ++ indexRelPath) s,
        st.trace ++ [Event.progress indexRelPath,
          Event.openF (g.outputDir ++ indexRelPath),
          Event.writeF (g.outputDir ++ indexRelPath)]⟩
      ⟨(prepFS env g st.fs).setFile (g.outputDir ++ indexRelPath) s,
        st.trace ++ [Event.progress indexRelPath,
          Event.openF (g.outputDir ++ indexRelPath),
          Event.writeF (g.outputDir ++ indexRelPath)]⟩
      _ hp ?_ ?_ ?_, ?_, ?_, ?_, ?_⟩
  · show generateIndex env g ({ st with fs := prepFS env g st.fs }) = _
    unfold generateIndex
    exact hIdx
  · unfold generateTags
    rw [htags]
    rfl
  · unfold generatePosts
    rw [hposts]
    rfl
  · simp [FS.files_setFile]
  · rw [FS.dirs_setFile]
    exact prepFS_dirs_tags env g st.fs
  · intro q hqt
    obtain ⟨r, hr⟩ := eq_append_of_underPath hqt
    have hne1 : q ≠ g.outputDir ++ indexRelPath := by
      rw [hr, List.append_assoc]
      exact append_ne_of_head_ne (by decide) r []
    rw [FS.files_setFile, if_neg hne1]
    refine prepFS_files_none env g st.fs q ?_ ?_
    · exact underPath_of_underPath_append hqt
    · intro a ha hqa
      have : a.1 = ["tags"] ++ r := by
        rw [hr, List.append_assoc] at hqa
        exact (List.append_cancel_left hqa).symm
      have h2 : underPath ["tags"] a.1 = true := by
        rw [this]
        exact underPath_append _ _
      rw [(hassets a ha).2] at h2
      exact absurd h2 (by decide)
  · intro q hq
    rw [setFile_isSome, prepFS_files env g st.fs q hq]
    exact or_comm

/-- Witness for C10 on the empty blog with an empty source tree. -/
theorem empty_blog_generate_witness :
    trivGen.posts = [] ∧ trivGen.indexTemplate [] = .ok "" ∧
    (∃ st', Generate cleanEnv trivGen st0 = (st', none) ∧
      st'.fs.files (trivGen.outputDir ++ indexRelPath) = some "" ∧
      st'.fs.dirs (trivGen.outputDir ++ ["tags"]) = true ∧
      (∀ q, underPath (trivGen.outputDir ++ ["tags"]) q = true →
        st'.fs.files q = none) ∧
      (∀ q, underPath trivGen.outputDir q = true →
        ((st'.fs.files q).isSome = true ↔
          (∃ a ∈ copiedAssets cleanEnv, q = trivGen.outputDir ++ a.1) ∨
          q = trivGen.outputDir ++ indexRelPath))) :=
  ⟨rfl, rfl,
   empty_blog_generate cleanEnv trivGen st0 "" rfl rfl rfl rfl rfl rfl rfl
     (by decide)⟩

/-! ## Stability and determinism lemmas for idempotence (C7) -/

theorem osRemoveAll_snd_stable (env : Env) (out : Path) (fs : FS) :
    removeAllFS out ((osRemoveAll env out fs).2) = removeAllFS out fs := by
  unfold osRemoveAll
  cases h : env.removeAllError
  · simpa using removeAllFS_idem out fs
  · rfl

theorem removeAllFS_setDir_self (out : Path) (F : FS) :
    removeAllFS out (F.setDir out) = removeAllFS out F := by
  have := removeAllFS_setDir_under out F []
  rwa [List.append_nil] at this

theorem generatePage_removeAll_stable {α : Type} (env : Env)
    (g : StaticBlogGenerator) (render : α → Except String String)
    (path : Path) (data : α) (st : GenState) :
    removeAllFS g.outputDir ((generatePage env g render path data st).1.fs) =
      removeAllFS g.outputDir st.fs := by
  cases ho : env.openError (g.outputDir ++ path) with
  | some e => rw [generatePage_openFail env g render path data st e ho]
  | none =>
    cases hr : render data with
    | error e =>
      rw [generatePage_renderFail env g render path data st e ho hr]
      exact removeAllFS_setFile_under g.outputDir st.fs path _
    | ok s =>
      rw [generatePage_ok env g render path data st s ho hr]
      exact removeAllFS_setFile_under g.outputDir st.fs path _

theorem generatePostsAux_removeAll_stable (env : Env)
    (g : StaticBlogGenerator) (l : List Post) (st : GenState) :
    removeAllFS g.outputDir ((generatePostsAux env g l st).1.fs) =
      removeAllFS g.outputDir st.fs := by
  induction l generalizing st with
  | nil => rfl
  | cons p rest ih =>
    unfold generatePostsAux
    cases hp : generatePage env g g.postTemplate (postRelPath p) p st with
    | mk s1 r =>
      have h1 : removeAllFS g.outputDir s1.fs =
          removeAllFS g.outputDir st.fs := by
        have := generatePage_removeAll_stable env g g.postTemplate
          (postRelPath p) p st
        rwa [hp] at this
      cases r with
      | some e => exact h1
      | none => exact (ih s1).trans h1

theorem generateTagsAux_removeAll_stable (env : Env)
    (g : StaticBlogGenerator) (l : List (String × List Post))
    (st : GenState) :
    removeAllFS g.outputDir ((generateTagsAux env g l st).1.fs) =
      removeAllFS g.outputDir st.fs := by
  induction l generalizing st with
  | nil => rfl
  | cons tb rest ih =>
    unfold generateTagsAux
    cases hp : generatePage env g g.tagTemplate (tagRelPath tb.1) tb st with
    | mk s1 r =>
      have h1 : removeAllFS g.outputDir s1.fs =
          removeAllFS g.outputDir st.fs := by
        have := generatePage_removeAll_stable env g g.tagTemplate
          (tagRelPath tb.1) tb st
        rwa [hp] at this
      cases r with
      | some e => exact h1
      | none => exact (ih s1).trans h1

theorem prepareOutputDir_removeAll_stable (env : Env)
    (g : StaticBlogGenerator) (st : GenState) :
    removeAllFS g.outputDir ((prepareOutputDir env g st).1.fs) =
      removeAllFS g.outputDir st.fs := by
  unfold prepareOutputDir
  split
  · exact osRemoveAll_snd_stable env g.outputDir st.fs
  · next fs2 heq =>
    have hfs2 : removeAllFS g.outputDir fs2 =
        removeAllFS g.outputDir st.fs := by
      unfold shutilCopyTree at heq
      cases hcc : env.copyTreeError <;> rw [hcc] at heq
      · rw [Except.ok.injEq] at heq
        rw [← heq, copyInto_removeAll_stable, removeAllFS_setDir_self]
        exact osRemoveAll_snd_stable env g.outputDir st.fs
      · simp at heq
    split
    · exact hfs2
    · next fs3 heq2 =>
      unfold osMkdir at heq2
      cases hmm : env.mkdirError <;> rw [hmm] at heq2
      · simp only [] at heq2
        split at heq2
        · simp at heq2
        · rw [Except.ok.injEq] at heq2
          rw [← heq2, removeAllFS_setDir_under]
          exact hfs2
      · simp at heq2

theorem Generate_removeAll_stable (env : Env) (g : StaticBlogGenerator)
    (st : GenState) :
    removeAllFS g.outputDir ((Generate env g st).1.fs) =
      removeAllFS g.outputDir st.fs := by
  unfold Generate generateIndex generateTags generatePosts
  cases hp : prepareOutputDir env g st with
  | mk s1 r1 =>
    have h1 : removeAllFS g.outputDir s1.fs =
        removeAllFS g.outputDir st.fs := by
      have := prepareOutputDir_removeAll_stable env g st
      rwa [hp] at this
    cases r1 with
    | some e => exact h1
    | none =>
      simp only []
      cases hi : generatePage env g g.indexTemplate indexRelPath g.posts s1
        with
      | mk s2 r2 =>
        have h2 : removeAllFS g.outputDir s2.fs =
            removeAllFS g.outputDir s1.fs := by
          have := generatePage_removeAll_stable env g g.indexTemplate
            indexRelPath g.posts s1
          rwa [hi] at this
        cases r2 with
        | some e => exact h2.trans h1
        | none =>
          simp only []
          cases htg : generateTagsAux env g g.postsByTag s2 with
          | mk s3 r3 =>
            have h3 : removeAllFS g.outputDir s3.fs =
                removeAllFS g.outputDir s2.fs := by
              have := generateTagsAux_removeAll_stable env g g.postsByTag s2
              rwa [htg] at this
            cases r3 with
            | some e => exact h3.trans (h2.trans h1)
            | none =>
              simp only []
              have h4 : removeAllFS g.outputDir
                  ((generatePostsAux env g g.posts s3).1.fs) =
                  removeAllFS g.outputDir s3.fs :=
                generatePostsAux_removeAll_stable env g g.posts s3
              cases hpo : generatePostsAux env g g.posts s3 with
              | mk s4 r4 =>
                rw [hpo] at h4
                cases r4 with
                | some e => exact h4.trans (h3.trans (h2.trans h1))
                | none => exact h4.trans (h3.trans (h2.trans h1))

theorem generatePage_det {α : Type} (env : Env) (g : StaticBlogGenerator)
    (render : α → Except String String) (path : Path) (data : α)
    (s s' : GenState) (hfs : s.fs = s'.fs) :
    ((generatePage env g render path data s).1.fs =
      (generatePage env g render path data s').1.fs) ∧
    ((generatePage env g render path data s).2 =
      (generatePage env g render path data s').2) := by
  cases ho : env.openError (g.outputDir ++ path) with
  | some e =>
    rw [generatePage_openFail env g render path data s e ho,
        generatePage_openFail env g render path data s' e ho]
    exact ⟨hfs, rfl⟩
  | none =>
    cases hr : render data with
    | error e =>
      rw [generatePage_renderFail env g render path data s e ho hr,
          generatePage_renderFail env g render path data s' e ho hr]
      exact ⟨by rw [hfs], rfl⟩
    | ok str =>
      rw [generatePage_ok env g render path data s str ho hr,
          generatePage_ok env g render path data s' str ho hr]
      exact ⟨by rw [hfs], rfl⟩

theorem generatePostsAux_det (env : Env) (g : StaticBlogGenerator)
    (l : List Post) : ∀ s s' : GenState, s.fs = s'.fs →
    ((generatePostsAux env g l s).1.fs =
      (generatePostsAux env g l s').1.fs) ∧
    ((generatePostsAux env g l s).2 = (generatePostsAux env g l s').2) := by
  induction l with
  | nil => exact fun s s' h => ⟨h, rfl⟩
  | cons p rest ih =>
    intro s s' h
    obtain ⟨hfs, herr⟩ :=
      generatePage_det env g g.postTemplate (postRelPath p) p s s' h
    unfold generatePostsAux
    cases hp : generatePage env g g.postTemplate (postRelPath p) p s with
    | mk s1 r1 =>
      cases hp' : generatePage env g g.postTemplate (postRelPath p) p s' with
      | mk s1' r1' =>
        rw [hp, hp'] at hfs herr
        subst herr
        cases r1 with
        | some e => exact ⟨hfs, rfl⟩
        | none => exact ih s1 s1' hfs

theorem generateTagsAux_det (env : Env) (g : StaticBlogGenerator)
    (l : List (String × List Post)) : ∀ s s' : GenState, s.fs = s'.fs →
    ((generateTagsAux env g l s).1.fs =
      (generateTagsAux env g l s').1.fs) ∧
    ((generateTagsAux env g l s).2 = (generateTagsAux env g l s').2) := by
  induction l with
  | nil => exact fun s s' h => ⟨h, rfl⟩
  | cons tb rest ih =>
    intro s s' h
    obtain ⟨hfs, herr⟩ :=
      generatePage_det env g g.tagTemplate (tagRelPath tb.1) tb s s' h
    unfold generateTagsAux
    cases hp : generatePage env g g.tagTemplate (tagRelPath tb.1) tb s with
    | mk s1 r1 =>
      cases hp' : generatePage env g g.tagTemplate (tagRelPath tb.1) tb s'
        with
      | mk s1' r1' =>
        rw [hp, hp'] at hfs herr
        subst herr
        cases r1 with
        | some e => exact ⟨hfs, rfl⟩
        | none => exact ih s1 s1' hfs

theorem prepareOutputDir_det (env : Env) (g : StaticBlogGenerator)
    (s s' : GenState) (h0 : env.removeAllError = none)
    (h : removeAllFS g.outputDir s.fs = removeAllFS g.outputDir s'.fs) :
    ((prepareOutputDir env g s).1.fs = (prepareOutputDir env g s').1.fs) ∧
    ((prepareOutputDir env g s).2 = (prepareOutputDir env g s').2) := by
  unfold prepareOutputDir osRemoveAll
  rw [h0]
  simp only []
  rw [h]
  refine ⟨?_, ?_⟩ <;>
  · cases hX : shutilCopyTree env g.outputDir
      (removeAllFS g.outputDir s'.fs) with
    | error e => rfl
    | ok fs2 =>
      simp only []
      cases hY : osMkdir env (g.outputDir ++ ["tags"]) fs2 with
      | error e => rfl
      | ok fs3 => rfl

theorem Generate_det (env : Env) (g : StaticBlogGenerator)
    (s s' : GenState) (h0 : env.removeAllError = none)
    (h : removeAllFS g.outputDir s.fs = removeAllFS g.outputDir s'.fs) :
    ((Generate env g s).1.fs = (Generate env g s').1.fs) ∧
    ((Generate env g s).2 = (Generate env g s').2) := by
  obtain ⟨hpf, hpe⟩ := prepareOutputDir_det env g s s' h0 h
  unfold Generate generateIndex generateTags generatePosts
  cases hp : prepareOutputDir env g s with
  | mk s1 r1 =>
    cases hp' : prepareOutputDir env g s' with
    | mk s1' r1' =>
      rw [hp, hp'] at hpf hpe
      subst hpe
      cases r1 with
      | some e => exact ⟨hpf, rfl⟩
      | none =>
        simp only []
        obtain ⟨hif, hie⟩ := generatePage_det env g g.indexTemplate
          indexRelPath g.posts s1 s1' hpf
        cases hi : generatePage env g g.indexTemplate indexRelPath g.posts s1
          with
        | mk s2 r2 =>
          cases hi' : generatePage env g g.indexTemplate indexRelPath
            g.posts s1' with
          | mk s2' r2' =>
            rw [hi, hi'] at hif hie
            subst hie
            cases r2 with
            | some e => exact ⟨hif, rfl⟩
            | none =>
              simp only []
              obtain ⟨htf, hte⟩ := generateTagsAux_det env g g.postsByTag
                s2 s2' hif
              cases htg : generateTagsAux env g g.postsByTag s2 with
              | mk s3 r3 =>
                cases htg' : generateTagsAux env g g.postsByTag s2' with
                | mk s3' r3' =>
                  rw [htg, htg'] at htf hte
                  subst hte
                  cases r3 with
                  | some e => exact ⟨htf, rfl⟩
                  | none =>
                    simp only []
                    obtain ⟨hpf4, hpe4⟩ := generatePostsAux_det env g
                      g.posts s3 s3' htf
                    cases hpo : generatePostsAux env g g.posts s3 with
                    | mk s4 r4 =>
                      cases hpo' : generatePostsAux env g g.posts s3' with
                      | mk s4' r4' =>
                        rw [hpo, hpo'] at hpf4 hpe4
                        subst hpe4
                        cases r4 with
                        | some e => exact ⟨hpf4, rfl⟩
                        | none => exact ⟨hpf4, rfl⟩

/-! ## C7: idempotence of `Generate` -/

/-- C7: running `Generate` twice with the same generator context and
environment (and a working removal step: the second run first destroys
the first run's output) reproduces the first run's filesystem exactly:
the second run succeeds and its final filesystem equals the first
run's. -/
theorem generate_idempotent (env : Env) (g : StaticBlogGenerator)
    (st st1 : GenState) (h0 : env.removeAllError = none)
    (h1 : Generate env g st = (st1, none)) :
    ∃ st2, Generate env g st1 = (st2, none) ∧ st2.fs = st1.fs := by
  have hstab : removeAllFS g.outputDir st1.fs =
      removeAllFS g.outputDir st.fs := by
    have := Generate_removeAll_stable env g st
    rwa [h1] at this
  obtain ⟨hf, he⟩ := Generate_det env g st1 st h0 hstab
  refine ⟨(Generate env g st1).1, ?_, ?_⟩
  · have h2 : (Generate env g st1).2 = none := by
      rw [he, h1]
    rw [← h2]
  · rw [hf, h1]

/-- Witness for C7: a concrete double run on the one-post blog. -/
theorem generate_idempotent_witness :
    cleanEnv.removeAllError = none ∧
    (∃ st2, Generate cleanEnv wGen (Generate cleanEnv wGen st0).1 =
        (st2, none) ∧
      st2.fs = (Generate cleanEnv wGen st0).1.fs) := by
  have h2 : (Generate cleanEnv wGen st0).2 = none := by decide
  have h : Generate cleanEnv wGen st0 =
      ((Generate cleanEnv wGen st0).1, none) := by
    rw [← h2]
  exact ⟨rfl, generate_idempotent cleanEnv wGen st0 _ rfl h⟩

/-! ## C8: the progress callback -/

theorem progressPaths_append (a b : List Event) :
    progressPaths (a ++ b) = progressPaths a ++ progressPaths b :=
  List.filterMap_append a b _

theorem generatePostsAux_ok_progress (env : Env) (g : StaticBlogGenerator)
    (l : List Post) (st st' : GenState)
    (h : generatePostsAux env g l st = (st', none)) :
    progressPaths st'.trace =
      progressPaths st.trace ++ l.map postRelPath := by
  induction l generalizing st with
  | nil =>
    unfold generatePostsAux at h
    rw [Prod.mk.injEq] at h
    rw [← h.1]
    simp
  | cons p rest ih =>
    unfold generatePostsAux at h
    cases hp : generatePage env g g.postTemplate (postRelPath p) p st with
    | mk st1 r =>
      rw [hp] at h
      cases r with
      | some e => simp at h
      | none =>
        obtain ⟨ho, s, hr, hst1⟩ := generatePage_none_inv hp
        have htr : progressPaths st1.trace =
            progressPaths st.trace ++ [postRelPath p] := by
          rw [hst1]
          simp [progressPaths, List.filterMap_append]
        rw [ih st1 h, htr]
        simp

theorem generateTagsAux_ok_progress (env : Env) (g : StaticBlogGenerator)
    (l : List (String × List Post)) (st st' : GenState)
    (h : generateTagsAux env g l st = (st', none)) :
    progressPaths st'.trace =
      progressPaths st.trace ++ l.map (fun tb => tagRelPath tb.1) := by
  induction l generalizing st with
  | nil =>
    unfold generateTagsAux at h
    rw [Prod.mk.injEq] at h
    rw [← h.1]
    simp
  | cons tb rest ih =>
    unfold generateTagsAux at h
    cases hp : generatePage env g g.tagTemplate (tagRelPath tb.1) tb st with
    | mk st1 r =>
      rw [hp] at h
      cases r with
      | some e => simp at h
      | none =>
        obtain ⟨ho, s, hr, hst1⟩ := generatePage_none_inv hp
        have htr : progressPaths st1.trace =
            progressPaths st.trace ++ [tagRelPath tb.1] := by
          rw [hst1]
          simp [progressPaths, List.filterMap_append]
        rw [ih st1 h, htr]
        simp

/-- C8: the progress callback runs exactly once per page with the page's
relative output path, strictly before the file open and the render-write
are attempted.  First conjunct (any outcome): the first event a
`generatePage` call appends to the trace is the `progress` event — it is
present even when the open or the render then fails — and no further
`progress` event of this call follows, so the callback fires exactly
once per page.  Second conjunct: over a whole successful run the
callback receives exactly `index.html`, then each tag page's relative
path, then each post page's relative path, once each.  The callback
cannot abort generation structurally: `ProgressFunc` returns nothing,
and the source ignores any behaviour of it. -/
theorem progress_callback_contract :
    (∀ (α : Type) (env : Env) (g : StaticBlogGenerator)
       (render : α → Except String String) (path : Path) (data : α)
       (st : GenState),
      ∃ rest, (generatePage env g render path data st).1.trace =
          st.trace ++ Event.progress path :: rest ∧
        ∀ p', Event.progress p' ∉ rest) ∧
    (∀ (env : Env) (g : StaticBlogGenerator) (st st' : GenState),
      Generate env g st = (st', none) →
      progressPaths st'.trace = progressPaths st.trace ++
        indexRelPath :: (g.postsByTag.map (fun tb => tagRelPath tb.1) ++
          g.posts.map postRelPath)) := by
  constructor
  · intro α env g render path data st
    cases ho : env.openError (g.outputDir ++ path) with
    | some e =>
      rw [generatePage_openFail env g render path data st e ho]
      exact ⟨[], by simp, by simp⟩
    | none =>
      cases hr : render data with
      | error e =>
        rw [generatePage_renderFail env g render path data st e ho hr]
        refine ⟨[Event.openF (g.outputDir ++ path)], by simp, ?_⟩
        intro p'
        simp
      | ok s =>
        rw [generatePage_ok env g render path data st s ho hr]
        refine ⟨[Event.openF (g.outputDir ++ path),
                 Event.writeF (g.outputDir ++ path)], by simp, ?_⟩
        intro p'
        simp
  · intro env g st st' h
    obtain ⟨st1, st2, st3, hp, hi, ht, hpo⟩ := Generate_ok_inv h
    have h1 : progressPaths st1.trace = progressPaths st.trace := by
      have := prepareOutputDir_trace env g st
      rw [hp] at this
      rw [this]
    unfold generateIndex at hi
    obtain ⟨ho, s, hr, hst2⟩ := generatePage_none_inv hi
    have h2 : progressPaths st2.trace =
        progressPaths st1.trace ++ [indexRelPath] := by
      rw [hst2]
      simp [progressPaths, List.filterMap_append]
    unfold generateTags at ht
    have h3 := generateTagsAux_ok_progress env g g.postsByTag st2 st3 ht
    unfold generatePosts at hpo
    have h4 := generatePostsAux_ok_progress env g g.posts st3 st' hpo
    rw [h4, h3, h2, h1]
    simp

/-- Witness for C8's run-level conjunct on the one-post, one-tag blog. -/
theorem progress_callback_contract_witness :
    (Generate cleanEnv wGen st0).2 = none ∧
    progressPaths ((Generate cleanEnv wGen st0).1.trace) =
      progressPaths st0.trace ++
        indexRelPath :: (wGen.postsByTag.map (fun tb => tagRelPath tb.1) ++
          wGen.posts.map postRelPath) := by
  have h2 : (Generate cleanEnv wGen st0).2 = none := by decide
  have h : Generate cleanEnv wGen st0 =
      ((Generate cleanEnv wGen st0).1, none) := by
    rw [← h2]
  exact ⟨h2, progress_callback_contract.2 cleanEnv wGen st0 _ h⟩

/-! ## C3: colliding output paths — last write starts at offset 0 but
does not truncate -/

/-- C3 (amended): when two posts' titles slugify to the same value, the
later-generated page is written over the earlier one from the start of
the file WITHOUT truncation (`os.OpenFile` is called with
`O_CREATE|O_WRONLY` and no `O_TRUNC`): the file ends up holding the later
render followed by any tail of the earlier render that extends past it
(`overwriteFrom b1 b2`), and `Generate` still reports success.  Only when
the later render is at least as long as the earlier one is the file
exactly the later render. -/
theorem slug_collision_lastwrite (t1 t2 b1 b2 : String)
    (hs : slugMake t1 = slugMake t2)
    (hi : slugMake t2 ++ ".html" ≠ "index.html") :
    ∃ st', Generate cleanEnv (collideGen t1 t2 b1 b2) st0 = (st', none) ∧
      st'.fs.files ["public", slugMake t2 ++ ".html"] =
        some (overwriteFrom b1 b2) := by
  have hre : ∀ q, (prepFS cleanEnv (collideGen t1 t2 b1 b2) emptyFS).files q
      = none := by
    intro q
    simp [prepFS, copiedAssets, cleanEnv, copyInto, List.foldl_nil,
      FS.files_setDir, removeAllFS_files, emptyFS, ite_self]
  have h1 : prepareOutputDir cleanEnv (collideGen t1 t2 b1 b2) st0 =
      ((⟨prepFS cleanEnv (collideGen t1 t2 b1 b2) emptyFS, []⟩ : GenState),
       none) :=
    prepareOutputDir_ok cleanEnv (collideGen t1 t2 b1 b2) st0 rfl rfl rfl
  have hIdx := generatePage_ok cleanEnv (collideGen t1 t2 b1 b2)
    (collideGen t1 t2 b1 b2).indexTemplate indexRelPath
    (collideGen t1 t2 b1 b2).posts
    (⟨prepFS cleanEnv (collideGen t1 t2 b1 b2) emptyFS, []⟩ : GenState)
    "" rfl rfl
  rw [show ((⟨prepFS cleanEnv (collideGen t1 t2 b1 b2) emptyFS, []⟩ :
      GenState).fs.files ((collideGen t1 t2 b1 b2).outputDir ++
        indexRelPath)) = none from hre _] at hIdx
  rw [Option.getD_none, overwriteFrom_empty] at hIdx
  have h2 : generateIndex cleanEnv (collideGen t1 t2 b1 b2)
      (⟨prepFS cleanEnv (collideGen t1 t2 b1 b2) emptyFS, []⟩ : GenState) =
      ((⟨(prepFS cleanEnv (collideGen t1 t2 b1 b2) emptyFS).setFile
          ["public", "index.html"] "",
        [Event.progress indexRelPath,
         Event.openF ["public", "index.html"],
         Event.writeF ["public", "index.html"]]⟩ : GenState), none) := by
    unfold generateIndex
    exact hIdx
  have h3 : generateTags cleanEnv (collideGen t1 t2 b1 b2)
      ((⟨(prepFS cleanEnv (collideGen t1 t2 b1 b2) emptyFS).setFile
          ["public", "index.html"] "",
        [Event.progress indexRelPath,
         Event.openF ["public", "index.html"],
         Event.writeF ["public", "index.html"]]⟩ : GenState)) =
      ((⟨(prepFS cleanEnv (collideGen t1 t2 b1 b2) emptyFS).setFile
          ["public", "index.html"] "",
        [Event.progress indexRelPath,
         Event.openF ["public", "index.html"],
         Event.writeF ["public", "index.html"]]⟩ : GenState), none) := rfl
  have hne1 : (((collideGen t1 t2 b1 b2).outputDir ++
      postRelPath { title := t1, body := b1, tags := [], date := 0 }) : Path)
      ≠ ["public", "index.html"] := by
    show (["public", slugMake t1 ++ ".html"] : Path) ≠ ["public", "index.html"]
    rw [hs]
    intro hc
    apply hi
    simpa using hc
  have hold1 : ((⟨(prepFS cleanEnv (collideGen t1 t2 b1 b2) emptyFS).setFile
          ["public", "index.html"] "",
        [Event.progress indexRelPath,
         Event.openF ["public", "index.html"],
         Event.writeF ["public", "index.html"]]⟩ : GenState).fs.files
      ((collideGen t1 t2 b1 b2).outputDir ++
       postRelPath { title := t1, body := b1, tags := [], date := 0 })) =
      none := by
    show ((prepFS cleanEnv (collideGen t1 t2 b1 b2) emptyFS).setFile
      ["public", "index.html"] "").files
      ((collideGen t1 t2 b1 b2).outputDir ++
       postRelPath { title := t1, body := b1, tags := [], date := 0 }) = none
    rw [FS.files_setFile, if_neg hne1, hre]
  have hpg1 := generatePage_ok cleanEnv (collideGen t1 t2 b1 b2)
    (collideGen t1 t2 b1 b2).postTemplate
    (postRelPath { title := t1, body := b1, tags := [], date := 0 })
    ({ title := t1, body := b1, tags := [], date := 0 } : Post)
    ((⟨(prepFS cleanEnv (collideGen t1 t2 b1 b2) emptyFS).setFile
          ["public", "index.html"] "",
        [Event.progress indexRelPath,
         Event.openF ["public", "index.html"],
         Event.writeF ["public", "index.html"]]⟩ : GenState)) b1 rfl rfl
  rw [hold1, Option.getD_none, overwriteFrom_empty] at hpg1
  have hP1 : generatePage cleanEnv (collideGen t1 t2 b1 b2)
      (collideGen t1 t2 b1 b2).postTemplate
      (postRelPath { title := t1, body := b1, tags := [], date := 0 })
      ({ title := t1, body := b1, tags := [], date := 0 } : Post)
      ((⟨(prepFS cleanEnv (collideGen t1 t2 b1 b2) emptyFS).setFile
          ["public", "index.html"] "",
        [Event.progress indexRelPath,
         Event.openF ["public", "index.html"],
         Event.writeF ["public", "index.html"]]⟩ : GenState)) =
      ((⟨((prepFS cleanEnv (collideGen t1 t2 b1 b2) emptyFS).setFile
          ["public", "index.html"] "").setFile
          ["public", slugMake t1 ++ ".html"] b1,
        [Event.progress indexRelPath,
         Event.openF ["public", "index.html"],
         Event.writeF ["public", "index.html"],
         Event.progress [slugMake t1 ++ ".html"],
         Event.openF ["public", slugMake t1 ++ ".html"],
         Event.writeF ["public", slugMake t1 ++ ".html"]]⟩ : GenState),
       none) := hpg1
  have hpathEq : (((collideGen t1 t2 b1 b2).outputDir ++
      postRelPath { title := t2, body := b2, tags := [], date := 1 }) : Path)
      = ["public", slugMake t1 ++ ".html"] := by
    show (["public", slugMake t2 ++ ".html"] : Path) =
      ["public", slugMake t1 ++ ".html"]
    rw [hs]
  have hold2 : ((⟨((prepFS cleanEnv (collideGen t1 t2 b1 b2) emptyFS).setFile
          ["public", "index.html"] "").setFile
          ["public", slugMake t1 ++ ".html"] b1,
        [Event.progress indexRelPath,
         Event.openF ["public", "index.html"],
         Event.writeF ["public", "index.html"],
         Event.progress [slugMake t1 ++ ".html"],
         Event.openF ["public", slugMake t1 ++ ".html"],
         Event.writeF ["public", slugMake t1 ++ ".html"]]⟩ :
        GenState).fs.files
      ((collideGen t1 t2 b1 b2).outputDir ++
       postRelPath { title := t2, body := b2, tags := [], date := 1 })) =
      some b1 := by
    show (((prepFS cleanEnv (collideGen t1 t2 b1 b2) emptyFS).setFile
      ["public", "index.html"] "").setFile
      ["public", slugMake t1 ++ ".html"] b1).files
      ((collideGen t1 t2 b1 b2).outputDir ++
       postRelPath { title := t2, body := b2, tags := [], date := 1 }) =
      some b1
    rw [hpathEq, FS.files_setFile, if_pos rfl]
  have hpg2 := generatePage_ok cleanEnv (collideGen t1 t2 b1 b2)
    (collideGen t1 t2 b1 b2).postTemplate
    (postRelPath { title := t2, body := b2, tags := [], date := 1 })
    ({ title := t2, body := b2, tags := [], date := 1 } : Post)
    ((⟨((prepFS cleanEnv (collideGen t1 t2 b1 b2) emptyFS).setFile
          ["public", "index.html"] "").setFile
          ["public", slugMake t1 ++ ".html"] b1,
        [Event.progress indexRelPath,
         Event.openF ["public", "index.html"],
         Event.writeF ["public", "index.html"],
         Event.progress [slugMake t1 ++ ".html"],
         Event.openF ["public", slugMake t1 ++ ".html"],
         Event.writeF ["public", slugMake t1 ++ ".html"]]⟩ : GenState))
    b2 rfl rfl
  rw [hold2, Option.getD_some] at hpg2
  have h4 : generatePosts cleanEnv (collideGen t1 t2 b1 b2)
      ((⟨(prepFS cleanEnv (collideGen t1 t2 b1 b2) emptyFS).setFile
          ["public", "index.html"] "",
        [Event.progress indexRelPath,
         Event.openF ["public", "index.html"],
         Event.writeF ["public", "index.html"]]⟩ : GenState)) =
      ((⟨(((prepFS cleanEnv (collideGen t1 t2 b1 b2) emptyFS).setFile
          ["public", "index.html"] "").setFile
          ["public", slugMake t1 ++ ".html"] b1).setFile
          ["public", slugMake t2 ++ ".html"] (overwriteFrom b1 b2),
        [Event.progress indexRelPath,
         Event.openF ["public", "index.html"],
         Event.writeF ["public", "index.html"],
         Event.progress [slugMake t1 ++ ".html"],
         Event.openF ["public", slugMake t1 ++ ".html"],
         Event.writeF ["public", slugMake t1 ++ ".html"],
         Event.progress [slugMake t2 ++ ".html"],
         Event.openF ["public", slugMake t2 ++ ".html"],
         Event.writeF ["public", slugMake t2 ++ ".html"]]⟩ : GenState),
       none) := by
    unfold generatePosts
    show generatePostsAux cleanEnv (collideGen t1 t2 b1 b2)
      (collideGen t1 t2 b1 b2).posts _ = _
    simp only [show (collideGen t1 t2 b1 b2).posts =
      [{ title := t1, body := b1, tags := [], date := 0 },
       { title := t2, body := b2, tags := [], date := 1 }] from rfl,
      generatePostsAux, hP1, hpg2]
    rfl
  refine ⟨_, Generate_eq_phases cleanEnv (collideGen t1 t2 b1 b2) st0
    _ _ _ _ h1 h2 h3 h4, ?_⟩
  rw [show ((⟨(((prepFS cleanEnv (collideGen t1 t2 b1 b2) emptyFS).setFile
        ["public", "index.html"] "").setFile
        ["public", slugMake t1 ++ ".html"] b1).setFile
        ["public", slugMake t2 ++ ".html"] (overwriteFrom b1 b2),
      [Event.progress indexRelPath,
       Event.openF ["public", "index.html"],
       Event.writeF ["public", "index.html"],
       Event.progress [slugMake t1 ++ ".html"],
       Event.openF ["public", slugMake t1 ++ ".html"],
       Event.writeF ["public", slugMake t1 ++ ".html"],
       Event.progress [slugMake t2 ++ ".html"],
       Event.openF ["public", slugMake t2 ++ ".html"],
       Event.writeF ["public", slugMake t2 ++ ".html"]]⟩ :
      GenState).fs.files ["public", slugMake t2 ++ ".html"]) =
    some (overwriteFrom b1 b2) from by
      rw [show ((⟨(((prepFS cleanEnv (collideGen t1 t2 b1 b2)
          emptyFS).setFile ["public", "index.html"] "").setFile
          ["public", slugMake t1 ++ ".html"] b1).setFile
          ["public", slugMake t2 ++ ".html"] (overwriteFrom b1 b2),
        [Event.progress indexRelPath,
         Event.openF ["public", "index.html"],
         Event.writeF ["public", "index.html"],
         Event.progress [slugMake t1 ++ ".html"],
         Event.openF ["public", slugMake t1 ++ ".html"],
         Event.writeF ["public", slugMake t1 ++ ".html"],
         Event.progress [slugMake t2 ++ ".html"],
         Event.openF ["public", slugMake t2 ++ ".html"],
         Event.writeF ["public", slugMake t2 ++ ".html"]]⟩ :
        GenState).fs.files ["public", slugMake t2 ++ ".html"]) =
        ((((prepFS cleanEnv (collideGen t1 t2 b1 b2) emptyFS).setFile
          ["public", "index.html"] "").setFile
          ["public", slugMake t1 ++ ".html"] b1).setFile
          ["public", slugMake t2 ++ ".html"] (overwriteFrom b1 b2)).files
          ["public", slugMake t2 ++ ".html"] from rfl]
      rw [FS.files_setFile, if_pos rfl]]

/-- Witness for C3's amended theorem at two concretely colliding titles. -/
theorem slug_collision_lastwrite_witness :
    slugMake "Hello World" = slugMake "hello world" ∧
    (∃ st', Generate cleanEnv
        (collideGen "Hello World" "hello world" "0123456789" "abc") st0 =
        (st', none) ∧
      st'.fs.files ["public", slugMake "hello world" ++ ".html"] =
        some (overwriteFrom "0123456789" "abc")) :=
  ⟨by decide,
   slug_collision_lastwrite "Hello World" "hello world" "0123456789" "abc"
     (by decide) (by decide)⟩

/-- C3 counterexample: two posts whose titles slugify to `hello-world`,
the earlier rendering `"0123456789"` (10 bytes) and the later rendering
`"abc"` (3 bytes).  The run succeeds, but the file on disk holds
`"abc3456789"` — the later page's bytes followed by the residue of the
earlier page — not exactly the later page's rendered content `"abc"`,
because the source opens the page file without `O_TRUNC`. -/
theorem slug_collision_cex :
    (Generate cleanEnv cexGen st0).2 = none ∧
    (Generate cleanEnv cexGen st0).1.fs.files ["public", "hello-world.html"]
      = some "abc3456789" ∧
    (Generate cleanEnv cexGen st0).1.fs.files ["public", "hello-world.html"]
      ≠ some "abc" :=
  ⟨by decide, by decide, by decide⟩

/-- Witness for C4's conditional parts at the spec's first example. -/
theorem summary_spec_witness :
    (paragraphs "# Heading\n\nFirst real paragraph.\n\nSecond." =
      ["# Heading"] ++ "First real paragraph." :: ["Second."]) ∧
    summary "# Heading\n\nFirst real paragraph.\n\nSecond." =
      "First real paragraph." :=
  ⟨by decide,
   summary_spec.2.1 "# Heading\n\nFirst real paragraph.\n\nSecond."
     "First real paragraph." ["# Heading"] ["Second."] (by decide)
     (by decide) (by decide)⟩

end Litepub
